import Mathlib

/-!
Shallow embedding of the application-layer parsing runtime of the Suricata
fork under verification (files src/rust/src/applayer.rs, mqtt/mqtt.rs,
krb/krb5.rs, ntp/ntp.rs, ike/ike.rs), together with theorems settling the
frozen claims about it.

Byte buffers are modelled as `List Nat` (each element a byte value).
Machine integers are `Nat` with explicit reductions modulo 2^32 / 2^64 at
the places where the Rust code casts or may wrap.  The message-grammar
decoders that live in crates outside src/ (mqtt/parser.rs, der_parser,
kerberos_parser, ntp_parser, ike/parser.rs) are modelled as black-box
function parameters, following the specification, which treats them as
"decode one message" functions returning a typed message or a
need-more-data signal; a decoder that returns a remainder is modelled as
returning the number of consumed bytes `n`, the remainder being `drop n`
of its input (the nom streaming convention).
-/

/-- Numeric bound 2^32, for `as u32` casts. -/
def U32 : Nat := 4294967296

/-- Numeric bound 2^64, for `usize` arithmetic. -/
def U64 : Nat := 18446744073709551616

/-- Model of a Rust `as u32` cast. -/
def u32of (n : Nat) : Nat := n % U32

/-- Model of Rust release-mode `usize` subtraction `a - b` (wrapping on
underflow), used where the source may underflow. Assumes `b ≤ U64`, true at
every call site in this development. -/
def usize_sub (a b : Nat) : Nat := (a + U64 - b) % U64

/-- AppLayerResult from applayer.rs: 3-valued status plus consumed/needed
byte counts. -/
structure AppLayerResult where
  status : Int
  consumed : Nat
  needed : Nat
deriving DecidableEq

/-- AppLayerResult::ok(): all input consumed. -/
def AppLayerResult.ok : AppLayerResult := ⟨0, 0, 0⟩

/-- AppLayerResult::err(): unrecoverable error. -/
def AppLayerResult.err : AppLayerResult := ⟨-1, 0, 0⟩

/-- AppLayerResult::incomplete(consumed, needed) from applayer.rs. -/
def AppLayerResult.incomplete (consumed needed : Nat) : AppLayerResult :=
  ⟨1, consumed, needed⟩

/-- Outcome of a probing function: the returned AppProto value.  The
concrete numeric AppProto ids are assigned at registration time (core.rs,
not in src/); only their distinction matters, so the outcome is modelled
as an enumeration: `unknown` is ALPROTO_UNKNOWN, `failed` is
ALPROTO_FAILED, and the protocol constructors are the registered
protocol ids. -/
inductive AppProtoVal where
  | unknown
  | failed
  | mqtt
  | krb5
  | ntp
  | ike
deriving DecidableEq

/-- STREAM_TOSERVER direction flag (value from core.rs, not in src/). -/
def STREAM_TOSERVER : Nat := 4

/-- STREAM_TOCLIENT direction flag (value from core.rs, not in src/). -/
def STREAM_TOCLIENT : Nat := 8

/-! ## MQTT (src/rust/src/mqtt/mqtt.rs) -/

/-- MQTT_CONNECT_PKT_ID from mqtt.rs: pseudo packet identifier for the
first CONNECT packet, u32::MAX. -/
def MQTT_CONNECT_PKT_ID : Nat := 4294967295

/-- MQTT message type codes, from mqtt_message.rs (not in src/); only
UNASSIGNED is inspected by mqtt.rs itself (in the probing function). -/
inductive MQTTTypeCode where
  | CONNECT | CONNACK | PUBLISH | PUBACK | PUBREC | PUBREL | PUBCOMP
  | SUBSCRIBE | SUBACK | UNSUBSCRIBE | UNSUBACK
  | PINGREQ | PINGRESP | DISCONNECT | AUTH | UNASSIGNED
deriving DecidableEq

/-- MQTT fixed header, from parser.rs (not in src/): the fields read by
mqtt.rs are the message type and the QoS level. -/
structure FixedHeader where
  message_type : MQTTTypeCode
  qos_level : Nat
deriving DecidableEq

/-- MQTT operation (mqtt_message.rs, not in src/), restricted to the
payload fields that mqtt.rs reads: the CONNECT protocol version, the
(u16, modelled as Nat) packet/message identifiers, and the TRUNCATED
skipped length. -/
inductive MQTTOperation where
  | CONNECT (protocol_version : Nat)
  | CONNACK
  | PUBLISH (message_id : Option Nat)
  | PUBACK (message_id : Nat)
  | PUBREC (message_id : Nat)
  | PUBREL (message_id : Nat)
  | PUBCOMP (message_id : Nat)
  | SUBSCRIBE (message_id : Nat)
  | SUBACK (message_id : Nat)
  | UNSUBSCRIBE (message_id : Nat)
  | UNSUBACK (message_id : Nat)
  | PINGREQ
  | PINGRESP
  | DISCONNECT
  | AUTH
  | TRUNCATED (skipped_length : Nat)
  | UNASSIGNED
deriving DecidableEq

/-- One decoded MQTT message. -/
structure MQTTMessage where
  header : FixedHeader
  op : MQTTOperation
deriving DecidableEq

/-- MQTTEvent from mqtt.rs, in declaration order. -/
inductive MQTTEvent where
  | MissingConnect
  | MissingPublish
  | MissingSubscribe
  | MissingUnsubscribe
  | DoubleConnect
  | UnintroducedMessage
  | InvalidQosLevel
  | MissingMsgId
  | UnassignedMsgType
deriving DecidableEq

/-- MQTTTransaction from mqtt.rs.  The externally owned raw pointers
(detect state, decoder events, tx_data) are modelled by the list of raised
events; logger flags are omitted as they never influence parsing. -/
structure MQTTTransaction where
  tx_id : Nat
  pkt_id : Option Nat
  msg : List MQTTMessage
  complete : Bool
  toclient : Bool
  toserver : Bool
  events : List MQTTEvent
deriving DecidableEq

/-- MQTTTransaction::new(msg). -/
def MQTTTransaction.new (m : MQTTMessage) : MQTTTransaction :=
  ⟨0, none, [m], false, false, false, []⟩

/-- MQTTState from mqtt.rs. -/
structure MQTTState where
  tx_id : Nat
  protocol_version : Nat
  transactions : List MQTTTransaction
  connected : Bool
  skip_request : Nat
  skip_response : Nat
  max_msg_len : Nat
deriving DecidableEq

/-- MQTTState::new() (the configured MAX_MSG_LEN is a parameter). -/
def MQTTState.new (maxlen : Nat) : MQTTState :=
  ⟨0, 0, [], false, 0, 0, maxlen⟩

/-- MQTTState::new_tx: bump the id counter and build the transaction that
will carry the message (the push to the store is done by the caller, as in
the source). -/
def MQTTState.new_tx (st : MQTTState) (m : MQTTMessage) (toclient : Bool) :
    MQTTState × MQTTTransaction :=
  ({ st with tx_id := st.tx_id + 1 },
   { MQTTTransaction.new m with
       tx_id := st.tx_id + 1, toclient := toclient, toserver := !toclient })

/-- MQTTState::set_event(tx, event): append the event to the transaction
(the C side appends the raw event code to the event list). -/
def MQTTState.set_event (tx : MQTTTransaction) (ev : MQTTEvent) : MQTTTransaction :=
  { tx with events := tx.events ++ [ev] }

/-- Mutation performed through MQTTState::get_tx_by_pkt_id in the
CONNACK/PUBACK/PUBCOMP/SUBACK/UNSUBACK branches of handle_msg: find the
first incomplete transaction whose pkt_id is `k`, append the message to
it, mark it complete and clear its pkt_id.  Returns none when no
transaction matches. -/
def ack_update (k : Nat) (m : MQTTMessage) :
    List MQTTTransaction → Option (List MQTTTransaction)
  | [] => none
  | tx :: rest =>
    if tx.complete = false ∧ tx.pkt_id = some k then
      some ({ tx with msg := tx.msg ++ [m], complete := true, pkt_id := none } :: rest)
    else
      match ack_update k m rest with
      | some rest1 => some (tx :: rest1)
      | none => none

/-- Mutation performed in the PUBREC/PUBREL branches of handle_msg: find
the first incomplete transaction whose pkt_id is `k` and append the
message to it (without completing it). -/
def rec_update (k : Nat) (m : MQTTMessage) :
    List MQTTTransaction → Option (List MQTTTransaction)
  | [] => none
  | tx :: rest =>
    if tx.complete = false ∧ tx.pkt_id = some k then
      some ({ tx with msg := tx.msg ++ [m] } :: rest)
    else
      match rec_update k m rest with
      | some rest1 => some (tx :: rest1)
      | none => none

/-- Push a fresh transaction carrying `m`, post-processed by `f`
(the `let mut tx = self.new_tx(msg, toclient); ...; self.transactions.push(tx)`
pattern of each handle_msg branch, with `f` the intermediate mutations). -/
def MQTTState.push_tx (st : MQTTState) (m : MQTTMessage) (toclient : Bool)
    (f : MQTTTransaction → MQTTTransaction) : MQTTState :=
  let p := st.new_tx m toclient
  { p.1 with transactions := p.1.transactions ++ [f p.2] }

/-- MQTTState::handle_msg from mqtt.rs: turn one decoded message into a
transaction create/update/event action.  Each branch mirrors the source. -/
def MQTTState.handle_msg (st : MQTTState) (m : MQTTMessage) (toclient : Bool) :
    MQTTState :=
  match m.op with
  | .CONNECT pv =>
    let st := { st with protocol_version := pv }
    if st.connected then
      st.push_tx m toclient (fun tx => MQTTState.set_event tx .DoubleConnect)
    else
      st.push_tx m toclient (fun tx => { tx with pkt_id := some MQTT_CONNECT_PKT_ID })
  | .PUBLISH mid =>
    if st.connected = false then
      st.push_tx m toclient (fun tx => MQTTState.set_event tx .UnintroducedMessage)
    else
      match m.header.qos_level, mid with
      | 0, _ => st.push_tx m toclient (fun tx => { tx with complete := true })
      | 1, some pkt_id => st.push_tx m toclient (fun tx => { tx with pkt_id := some pkt_id })
      | 2, some pkt_id => st.push_tx m toclient (fun tx => { tx with pkt_id := some pkt_id })
      | 1, none => st.push_tx m toclient (fun tx => MQTTState.set_event tx .MissingMsgId)
      | 2, none => st.push_tx m toclient (fun tx => MQTTState.set_event tx .MissingMsgId)
      | _ + 3, _ => st.push_tx m toclient (fun tx => MQTTState.set_event tx .InvalidQosLevel)
  | .SUBSCRIBE pkt_id =>
    if st.connected = false then
      st.push_tx m toclient (fun tx => MQTTState.set_event tx .UnintroducedMessage)
    else
      match m.header.qos_level with
      | 0 => st.push_tx m toclient (fun tx => { tx with complete := true })
      | 1 => st.push_tx m toclient (fun tx => { tx with pkt_id := some pkt_id })
      | 2 => st.push_tx m toclient (fun tx => { tx with pkt_id := some pkt_id })
      | _ + 3 => st.push_tx m toclient (fun tx => MQTTState.set_event tx .InvalidQosLevel)
  | .UNSUBSCRIBE pkt_id =>
    if st.connected = false then
      st.push_tx m toclient (fun tx => MQTTState.set_event tx .UnintroducedMessage)
    else
      match m.header.qos_level with
      | 0 => st.push_tx m toclient (fun tx => { tx with complete := true })
      | 1 => st.push_tx m toclient (fun tx => { tx with pkt_id := some pkt_id })
      | 2 => st.push_tx m toclient (fun tx => { tx with pkt_id := some pkt_id })
      | _ + 3 => st.push_tx m toclient (fun tx => MQTTState.set_event tx .InvalidQosLevel)
  | .CONNACK =>
    match ack_update MQTT_CONNECT_PKT_ID m st.transactions with
    | some txs => { st with transactions := txs, connected := true }
    | none => st.push_tx m toclient (fun tx => MQTTState.set_event tx .MissingConnect)
  | .PUBREC mid =>
    if st.connected = false then
      st.push_tx m toclient (fun tx => MQTTState.set_event tx .UnintroducedMessage)
    else
      match rec_update mid m st.transactions with
      | some txs => { st with transactions := txs }
      | none => st.push_tx m toclient (fun tx => MQTTState.set_event tx .MissingPublish)
  | .PUBREL mid =>
    if st.connected = false then
      st.push_tx m toclient (fun tx => MQTTState.set_event tx .UnintroducedMessage)
    else
      match rec_update mid m st.transactions with
      | some txs => { st with transactions := txs }
      | none => st.push_tx m toclient (fun tx => MQTTState.set_event tx .MissingPublish)
  | .PUBACK mid =>
    if st.connected = false then
      st.push_tx m toclient (fun tx => MQTTState.set_event tx .UnintroducedMessage)
    else
      match ack_update mid m st.transactions with
      | some txs => { st with transactions := txs }
      | none => st.push_tx m toclient (fun tx => MQTTState.set_event tx .MissingPublish)
  | .PUBCOMP mid =>
    if st.connected = false then
      st.push_tx m toclient (fun tx => MQTTState.set_event tx .UnintroducedMessage)
    else
      match ack_update mid m st.transactions with
      | some txs => { st with transactions := txs }
      | none => st.push_tx m toclient (fun tx => MQTTState.set_event tx .MissingPublish)
  | .SUBACK mid =>
    if st.connected = false then
      st.push_tx m toclient (fun tx => MQTTState.set_event tx .UnintroducedMessage)
    else
      match ack_update mid m st.transactions with
      | some txs => { st with transactions := txs }
      | none => st.push_tx m toclient (fun tx => MQTTState.set_event tx .MissingSubscribe)
  | .UNSUBACK mid =>
    if st.connected = false then
      st.push_tx m toclient (fun tx => MQTTState.set_event tx .UnintroducedMessage)
    else
      match ack_update mid m st.transactions with
      | some txs => { st with transactions := txs }
      | none => st.push_tx m toclient (fun tx => MQTTState.set_event tx .MissingUnsubscribe)
  | .UNASSIGNED =>
    st.push_tx m toclient
      (fun tx => MQTTState.set_event { tx with complete := true } .UnassignedMsgType)
  | .TRUNCATED _ =>
    st.push_tx m toclient (fun tx => { tx with complete := true })
  | .AUTH =>
    if st.connected = false then
      st.push_tx m toclient (fun tx => MQTTState.set_event tx .UnintroducedMessage)
    else
      st.push_tx m toclient (fun tx => { tx with complete := true })
  | .DISCONNECT =>
    if st.connected = false then
      st.push_tx m toclient (fun tx => MQTTState.set_event tx .UnintroducedMessage)
    else
      st.push_tx m toclient (fun tx => { tx with complete := true })
  | .PINGREQ =>
    if st.connected = false then
      st.push_tx m toclient (fun tx => MQTTState.set_event tx .UnintroducedMessage)
    else
      st.push_tx m toclient (fun tx => { tx with complete := true })
  | .PINGRESP =>
    if st.connected = false then
      st.push_tx m toclient (fun tx => MQTTState.set_event tx .UnintroducedMessage)
    else
      st.push_tx m toclient (fun tx => { tx with complete := true })

/-- Remove the first element whose id (under `idf`) equals `k`, leaving
the list unchanged when there is none: the scan-for-index-then-remove
pattern shared by the free_tx implementations. -/
def remove_first_id {α : Type} (idf : α → Nat) (k : Nat) : List α → List α
  | [] => []
  | a :: rest => if idf a = k then rest else a :: remove_first_id idf k rest

/-- MQTTState::free_tx: remove the first stored transaction whose internal
id equals `tx_id + 1`, if any. -/
def MQTTState.free_tx (st : MQTTState) (tx_id : Nat) : MQTTState :=
  { st with transactions :=
      remove_first_id MQTTTransaction.tx_id (tx_id + 1) st.transactions }

/-- MQTTState::get_tx: return the first stored transaction whose internal
id equals `tx_id + 1`. -/
def MQTTState.get_tx (st : MQTTState) (tx_id : Nat) : Option MQTTTransaction :=
  st.transactions.find? (fun tx => tx.tx_id = tx_id + 1)

/-- rs_mqtt_state_get_tx_count: returns the running id counter. -/
def rs_mqtt_state_get_tx_count (st : MQTTState) : Nat := st.tx_id

/-- Inner loop of MQTTState::tx_iterator, walking the store from `index`;
`total` is the length of the full store (for the has_next flag).  Returns
(transaction, external id, has_next, cursor). -/
def mqtt_iter_go (min_tx_id : Nat) :
    List MQTTTransaction → Nat → Nat → Option (MQTTTransaction × Nat × Bool × Nat)
  | [], _, _ => none
  | tx :: rest, index, total =>
    if tx.tx_id < min_tx_id + 1 then mqtt_iter_go min_tx_id rest (index + 1) total
    else some (tx, tx.tx_id - 1, total - index > 1, index)

/-- MQTTState::tx_iterator: cursor-based iteration, yielding the external
id `tx_id - 1` and storing the index back into the cursor. -/
def MQTTState.tx_iterator (st : MQTTState) (min_tx_id cursor : Nat) :
    Option (MQTTTransaction × Nat × Bool × Nat) :=
  mqtt_iter_go min_tx_id (st.transactions.drop cursor) cursor st.transactions.length

/-- Result of the black-box MQTT message decoder parse_message
(mqtt/parser.rs, not in src/): either a decoded message together with the
number of input bytes consumed (the nom remainder being `drop n` of the
input), a need-more-data signal, or a decode error. -/
inductive MQTTParseRes where
  | ok (n : Nat) (msg : MQTTMessage)
  | incomplete
  | error
deriving DecidableEq

/-- Type of the black-box parse_message decoder: input bytes, protocol
version, maximum message length. -/
def MQTTDecoder := List Nat → Nat → Nat → MQTTParseRes

/-- Write the per-direction skip counter (skip_response when `toclient`,
skip_request otherwise). -/
def MQTTState.setSkip (st : MQTTState) (toclient : Bool) (v : Nat) : MQTTState :=
  if toclient then { st with skip_response := v } else { st with skip_request := v }

/-- Read the per-direction skip counter. -/
def MQTTState.getSkip (st : MQTTState) (toclient : Bool) : Nat :=
  if toclient then st.skip_response else st.skip_request

/-- Scrutinee of the source's
`if let MQTTOperation::TRUNCATED(ref trunc) = msg.op` test: the skipped
length when the operation is TRUNCATED. -/
def MQTTOperation.truncLen : MQTTOperation → Option Nat
  | .TRUNCATED s => some s
  | _ => none

/-- The `while current.len() > 0` loop shared by MQTTState::parse_request
and MQTTState::parse_response (they are textually identical up to the
direction-specific skip counter and direction flag).  `fuel` bounds the
number of iterations: `none` means the loop did not finish within `fuel`
iterations (the Rust loop does not terminate when the decoder consumes
nothing and produces no skip). -/
def mqtt_loop (pm : MQTTDecoder) (toclient : Bool) :
    Nat → MQTTState → Nat → List Nat → Option (MQTTState × AppLayerResult)
  | 0, _, _, _ => none
  | _ + 1, st, _, [] => some (st, AppLayerResult.ok)
  | fuel + 1, st, consumed, b :: bs =>
    let current := b :: bs
    match pm current st.protocol_version st.max_msg_len with
    | .incomplete =>
      some (st, AppLayerResult.incomplete (u32of consumed) (u32of (current.length + 1)))
    | .error => some (st, AppLayerResult.err)
    | .ok n msg =>
      let rem := current.drop n
      match msg.op.truncLen with
      | some s =>
        if s ≥ current.length then
          let st1 := (st.setSkip toclient (s - current.length)).handle_msg msg toclient
          some (st1, AppLayerResult.ok)
        else
          let current1 := current.drop s
          let st1 := (st.setSkip toclient 0).handle_msg msg toclient
          mqtt_loop pm toclient fuel st1
            ((consumed + usize_sub current1.length rem.length) % U64) rem
      | none =>
        let st1 := st.handle_msg msg toclient
        mqtt_loop pm toclient fuel st1
          ((consumed + usize_sub current.length rem.length) % U64) rem

/-- Common body of MQTTState::parse_request / parse_response: empty-input
early return, skip handling, then the message loop. -/
def MQTTState.parse_dir (pm : MQTTDecoder) (toclient : Bool) (fuel : Nat)
    (st : MQTTState) (input : List Nat) : Option (MQTTState × AppLayerResult) :=
  if input.length = 0 then some (st, AppLayerResult.ok)
  else
    let skip := st.getSkip toclient
    if 0 < skip then
      if input.length ≤ skip then
        some (st.setSkip toclient (skip - input.length), AppLayerResult.ok)
      else
        mqtt_loop pm toclient fuel (st.setSkip toclient 0) skip (input.drop skip)
    else
      mqtt_loop pm toclient fuel st 0 input

/-- MQTTState::parse_request (direction to server). -/
def MQTTState.parse_request (pm : MQTTDecoder) (fuel : Nat) (st : MQTTState)
    (input : List Nat) : Option (MQTTState × AppLayerResult) :=
  st.parse_dir pm false fuel input

/-- MQTTState::parse_response (direction to client). -/
def MQTTState.parse_response (pm : MQTTDecoder) (fuel : Nat) (st : MQTTState)
    (input : List Nat) : Option (MQTTState × AppLayerResult) :=
  st.parse_dir pm true fuel input

/-- Result of the black-box parse_fixed_header decoder (mqtt/parser.rs,
not in src/), used by the MQTT probing function. -/
inductive FHRes where
  | ok (n : Nat) (hdr : FixedHeader)
  | incomplete
  | error
deriving DecidableEq

/-- rs_mqtt_probing_parser from mqtt.rs (name shortened): reject an
unassigned message type or a QoS level above 2, confirm otherwise;
need-more-data maps to ALPROTO_UNKNOWN, a decode error to ALPROTO_FAILED. -/
def rs_mqtt_probing (pfh : List Nat → FHRes) (input : List Nat) : AppProtoVal :=
  match pfh input with
  | .ok _ hdr =>
    if hdr.message_type = .UNASSIGNED then .failed
    else if hdr.qos_level > 2 then .failed
    else .mqtt
  | .incomplete => .unknown
  | .error => .failed

/-! ## KRB5 (src/rust/src/krb/krb5.rs) -/

/-- BER class of a DER element header (der_parser crate, not in src/). -/
inductive BerClass where
  | universal
  | application
  | contextSpecific
  | private_
deriving DecidableEq

/-- DER element header as read by der_read_element_header: the fields
used by krb5.rs are the class and the tag number. -/
structure DerHeader where
  cls : BerClass
  tag : Nat
deriving DecidableEq

/-- Result of the black-box der_read_element_header (der_parser crate, not
in src/): header plus number of consumed bytes (remainder = `drop n`), a
need-more-data signal, or an error. -/
inductive DerRes where
  | ok (n : Nat) (hdr : DerHeader)
  | incomplete
  | error
deriving DecidableEq

/-- KDC reply payload fields stored by krb5.rs (kerberos_parser crate, not
in src/); principal names and realms are modelled as opaque numeric codes,
ticket.sname is flattened into the sname field. -/
structure KdcRep where
  cname : Nat
  crealm : Nat
  sname : Nat
  etype : Nat
deriving DecidableEq

/-- KRB-ERROR payload fields stored by krb5.rs (kerberos_parser crate, not
in src/). -/
structure KrbError where
  cname : Option Nat
  crealm : Option Nat
  sname : Nat
  error_code : Int
deriving DecidableEq

/-- The bundle of black-box Kerberos decoders used by krb5.rs:
der_read_element_header, krb5_parser::parse_as_rep / parse_tgs_rep /
parse_krb_error. -/
structure KrbDecoder where
  der : List Nat → DerRes
  as_rep : List Nat → Option KdcRep
  tgs_rep : List Nat → Option KdcRep
  krb_error : List Nat → Option KrbError

/-- KRB5Event codes from krb5.rs: MalformedData = 0, WeakEncryption = 1. -/
def KRB5_EV_MALFORMED : Nat := 0

/-- WeakEncryption event code. -/
def KRB5_EV_WEAK : Nat := 1

/-- KRB5Transaction from krb5.rs; msg_type holds the numeric
MessageType value, events the raised event codes. -/
structure KRB5Transaction where
  msg_type : Nat
  cname : Option Nat
  realm : Option Nat
  sname : Option Nat
  etype : Option Nat
  error_code : Option Int
  id : Nat
  events : List Nat
deriving DecidableEq

/-- KRB5Transaction::new(id). -/
def KRB5Transaction.new (id : Nat) : KRB5Transaction :=
  ⟨0, none, none, none, none, none, id, []⟩

/-- KRB5State from krb5.rs. -/
structure KRB5State where
  req_id : Nat
  record_ts : Nat
  defrag_buf_ts : List Nat
  record_tc : Nat
  defrag_buf_tc : List Nat
  transactions : List KRB5Transaction
  tx_id : Nat
deriving DecidableEq

/-- KRB5State::new(). -/
def KRB5State.new : KRB5State := ⟨0, 0, [], 0, [], [], 0⟩

/-- KRB5State::new_tx: bump the id counter and create a transaction with
the new id. -/
def KRB5State.new_tx (st : KRB5State) : KRB5State × KRB5Transaction :=
  ({ st with tx_id := st.tx_id + 1 }, KRB5Transaction.new (st.tx_id + 1))

/-- KRB5State::get_tx_by_id: first transaction whose id is `tx_id + 1`. -/
def KRB5State.get_tx_by_id (st : KRB5State) (tx_id : Nat) : Option KRB5Transaction :=
  st.transactions.find? (fun tx => tx.id = tx_id + 1)

/-- KRB5State::free_tx: remove the first transaction whose id is
`tx_id + 1`, if any (release semantics: the debug_assert is a no-op). -/
def KRB5State.free_tx (st : KRB5State) (tx_id : Nat) : KRB5State :=
  { st with transactions :=
      remove_first_id KRB5Transaction.id (tx_id + 1) st.transactions }

/-- Append an event code to the last transaction of the list, if any
(helper for KRB5State::set_event). -/
def set_last_event (ev : Nat) : List KRB5Transaction → List KRB5Transaction
  | [] => []
  | [tx] => [{ tx with events := tx.events ++ [ev] }]
  | tx :: b :: bs => tx :: set_last_event ev (b :: bs)

/-- KRB5State::set_event: the event is set on the most recent
transaction. -/
def KRB5State.set_event (st : KRB5State) (ev : Nat) : KRB5State :=
  { st with transactions := set_last_event ev st.transactions }

/-- test_weak_encryption from krb5.rs: the listed AES/Camellia CTS
encryption types (numeric codes 17, 18, 19, 20, 25, 26 in
kerberos_parser) are strong, everything else is weak. -/
def test_weak_encryption (alg : Nat) : Bool :=
  if alg = 17 ∨ alg = 18 ∨ alg = 19 ∨ alg = 20 ∨ alg = 25 ∨ alg = 26 then false
  else true

/-- KRB5State::parse: dispatch one complete Kerberos message on the DER
application tag, creating a transaction for AS-REP (11), TGS-REP (13) and
KRB-ERROR (30), recording the request tag for 10/12/14, and returning 0 on
success or -1 (after raising MalformedData) when the DER header cannot be
read.  MessageType codes: KRB_AS_REP = 11, KRB_TGS_REP = 13. -/
def KRB5State.parse (kd : KrbDecoder) (st : KRB5State) (i : List Nat) :
    KRB5State × Int :=
  match kd.der i with
  | .ok _ hdr =>
    if hdr.cls ≠ BerClass.application then (st, 0)
    else
      match hdr.tag with
      | 10 => ({ st with req_id := 10 }, 0)
      | 11 =>
        match kd.as_rep i with
        | some rep =>
          let p := st.new_tx
          let tx := { p.2 with
                      msg_type := 11, cname := some rep.cname,
                      realm := some rep.crealm, sname := some rep.sname,
                      etype := some rep.etype }
          let st1 := { p.1 with transactions := p.1.transactions ++ [tx] }
          let st2 := if test_weak_encryption rep.etype
                     then st1.set_event KRB5_EV_WEAK else st1
          ({ st2 with req_id := 0 }, 0)
        | none => ({ st with req_id := 0 }, 0)
      | 12 => ({ st with req_id := 12 }, 0)
      | 13 =>
        match kd.tgs_rep i with
        | some rep =>
          let p := st.new_tx
          let tx := { p.2 with
                      msg_type := 13, cname := some rep.cname,
                      realm := some rep.crealm, sname := some rep.sname,
                      etype := some rep.etype }
          let st1 := { p.1 with transactions := p.1.transactions ++ [tx] }
          let st2 := if test_weak_encryption rep.etype
                     then st1.set_event KRB5_EV_WEAK else st1
          ({ st2 with req_id := 0 }, 0)
        | none => ({ st with req_id := 0 }, 0)
      | 14 => ({ st with req_id := 14 }, 0)
      | 15 => ({ st with req_id := 0 }, 0)
      | 30 =>
        match kd.krb_error i with
        | some e =>
          let p := st.new_tx
          let tx := { p.2 with
                      msg_type := st.req_id, cname := e.cname,
                      realm := e.crealm, sname := some e.sname,
                      error_code := some e.error_code }
          ({ p.1 with transactions := p.1.transactions ++ [tx], req_id := 0 }, 0)
        | none => ({ st with req_id := 0 }, 0)
      | _ => (st, 0)
  | .incomplete => (st.set_event KRB5_EV_MALFORMED, -1)
  | .error => (st.set_event KRB5_EV_MALFORMED, -1)

/-- nom's streaming be_u32: a big-endian u32 and the remainder, or a
need-more-data signal when fewer than 4 bytes are available (it never
fails otherwise). -/
def be_u32 : List Nat → Option (Nat × List Nat)
  | a :: b :: c :: d :: rest => some ((((a * 256 + b) * 256 + c) * 256 + d), rest)
  | _ => none

/-- rs_krb5_parse_request (UDP): parse one datagram, Error when
KRB5State::parse reports failure. -/
def rs_krb5_parse_request (kd : KrbDecoder) (st : KRB5State) (buf : List Nat) :
    KRB5State × AppLayerResult :=
  let p := st.parse kd buf
  if p.2 < 0 then (p.1, AppLayerResult.err) else (p.1, AppLayerResult.ok)

/-- rs_krb5_parse_response (UDP): same as the request direction. -/
def rs_krb5_parse_response (kd : KrbDecoder) (st : KRB5State) (buf : List Nat) :
    KRB5State × AppLayerResult :=
  let p := st.parse kd buf
  if p.2 < 0 then (p.1, AppLayerResult.err) else (p.1, AppLayerResult.ok)

/-- Iterations of the rs_krb5_parse_request_tcp while-loop at whose top
record_ts = 0: read a 4-byte record mark (buffering the bytes and
returning Ok when fewer than 4 are available), store it in record_ts,
then — exactly as the source does — if enough bytes are available parse
the WHOLE remaining buffer, reset record_ts to 0 and continue with
`cur_i[state.record_ts..]`, which after the reset is the unchanged
buffer; otherwise buffer the remainder and return Ok. -/
def krb5_loop_ts (kd : KrbDecoder) (st : KRB5State) :
    List Nat → KRB5State × AppLayerResult
  | [] => (st, AppLayerResult.ok)
  | a :: b :: c :: d :: rest =>
    let record := ((a * 256 + b) * 256 + c) * 256 + d
    let st1 := { st with record_ts := record }
    if rest.length ≥ record then
      let p := KRB5State.parse kd st1 rest
      if p.2 < 0 then (p.1, AppLayerResult.err)
      else krb5_loop_ts kd { p.1 with record_ts := 0 } rest
    else ({ st1 with defrag_buf_ts := st1.defrag_buf_ts ++ rest }, AppLayerResult.ok)
  | cur => ({ st with defrag_buf_ts := st.defrag_buf_ts ++ cur }, AppLayerResult.ok)

/-- First iteration of the rs_krb5_parse_request_tcp while-loop, where
record_ts may still be non-zero: when a record length is pending and
enough bytes are available, parse the whole buffer, reset record_ts and
continue the loop (on the unchanged buffer, as in the source); on partial
availability buffer the bytes; with no pending record fall into the
record-mark-reading loop. -/
def krb5_entry_ts (kd : KrbDecoder) (st : KRB5State) (cur : List Nat) :
    KRB5State × AppLayerResult :=
  match cur with
  | [] => (st, AppLayerResult.ok)
  | _ :: _ =>
    if st.record_ts = 0 then krb5_loop_ts kd st cur
    else if cur.length ≥ st.record_ts then
      let p := KRB5State.parse kd st cur
      if p.2 < 0 then (p.1, AppLayerResult.err)
      else krb5_loop_ts kd { p.1 with record_ts := 0 } cur
    else ({ st with defrag_buf_ts := st.defrag_buf_ts ++ cur }, AppLayerResult.ok)

/-- rs_krb5_parse_request_tcp: when a record is pending, enforce the
100000-byte defragmentation cap and splice the buffered bytes (emptied by
split_off(0)) with the new delivery; then run the record loop. -/
def rs_krb5_parse_request_tcp (kd : KrbDecoder) (st : KRB5State) (buf : List Nat) :
    KRB5State × AppLayerResult :=
  if st.record_ts = 0 then krb5_entry_ts kd st buf
  else if st.defrag_buf_ts.length + buf.length > 100000 then (st, AppLayerResult.err)
  else krb5_entry_ts kd { st with defrag_buf_ts := [] } (st.defrag_buf_ts ++ buf)

/-- Iterations of the rs_krb5_parse_response_tcp while-loop at whose top
record_tc = 0; same structure as the request direction (including the
record_tc reset happening before the slice). -/
def krb5_loop_tc (kd : KrbDecoder) (st : KRB5State) :
    List Nat → KRB5State × AppLayerResult
  | [] => (st, AppLayerResult.ok)
  | a :: b :: c :: d :: rest =>
    let record := ((a * 256 + b) * 256 + c) * 256 + d
    let st1 := { st with record_tc := record }
    if rest.length ≥ record then
      let p := KRB5State.parse kd st1 rest
      if p.2 < 0 then (p.1, AppLayerResult.err)
      else krb5_loop_tc kd { p.1 with record_tc := 0 } rest
    else ({ st1 with defrag_buf_tc := st1.defrag_buf_tc ++ rest }, AppLayerResult.ok)
  | cur => ({ st with defrag_buf_tc := st.defrag_buf_tc ++ cur }, AppLayerResult.ok)

/-- First iteration of the rs_krb5_parse_response_tcp while-loop. -/
def krb5_entry_tc (kd : KrbDecoder) (st : KRB5State) (cur : List Nat) :
    KRB5State × AppLayerResult :=
  match cur with
  | [] => (st, AppLayerResult.ok)
  | _ :: _ =>
    if st.record_tc = 0 then krb5_loop_tc kd st cur
    else if cur.length ≥ st.record_tc then
      let p := KRB5State.parse kd st cur
      if p.2 < 0 then (p.1, AppLayerResult.err)
      else krb5_loop_tc kd { p.1 with record_tc := 0 } cur
    else ({ st with defrag_buf_tc := st.defrag_buf_tc ++ cur }, AppLayerResult.ok)

/-- rs_krb5_parse_response_tcp: as the request direction, with the
to-client record counter and defragmentation buffer. -/
def rs_krb5_parse_response_tcp (kd : KrbDecoder) (st : KRB5State) (buf : List Nat) :
    KRB5State × AppLayerResult :=
  if st.record_tc = 0 then krb5_entry_tc kd st buf
  else if st.defrag_buf_tc.length + buf.length > 100000 then (st, AppLayerResult.err)
  else krb5_entry_tc kd { st with defrag_buf_tc := [] } (st.defrag_buf_tc ++ buf)

/-- rs_krb5_probing_parser from krb5.rs (name shortened): buffers of at
most 10 bytes are rejected outright; otherwise the DER header is read:
need-more-data maps to ALPROTO_UNKNOWN, a non-APPLICATION class, a tag
above 30, a remainder not starting with 0x30, or a missing DER-encoded
version integer 5 map to ALPROTO_FAILED. -/
def rs_krb5_probing (kd : KrbDecoder) (input : List Nat) : AppProtoVal :=
  if input.length ≤ 10 then .failed
  else
    match kd.der input with
    | .ok n hdr =>
      let rem := input.drop n
      if hdr.cls ≠ BerClass.application then .failed
      else if hdr.tag > 30 then .failed
      else if rem.headD 0 ≠ 48 ∨ rem = [] then .failed
      else
        match kd.der rem with
        | .ok n2 _ =>
          let rem2 := rem.drop n2
          if rem2.length > 5 then
            if rem2.getD 2 0 = 2 ∧ rem2.getD 3 0 = 1 ∧ rem2.getD 4 0 = 5 then .krb5
            else .failed
          else .failed
        | _ => .failed
    | .incomplete => .unknown
    | .error => .failed

/-- rs_krb5_probing_parser_tcp from krb5.rs (name shortened): buffers of
at most 14 bytes are rejected; otherwise the 4-byte record mark is read
(need-more-data would map to ALPROTO_UNKNOWN), record marks above 16384
are rejected, and the UDP probing function is run on the remainder. -/
def rs_krb5_probing_tcp (kd : KrbDecoder) (input : List Nat) : AppProtoVal :=
  if input.length ≤ 14 then .failed
  else
    match be_u32 input with
    | some (record_mark, rem) =>
      if record_mark > 16384 then .failed
      else rs_krb5_probing kd rem
    | none => .unknown

/-! ## NTP (src/rust/src/ntp/ntp.rs) -/

/-- NTP mode (ntp_parser crate, not in src/): the modes inspected by
ntp.rs plus a catch-all for every other mode value. -/
inductive NtpMode where
  | client
  | symmetricActive
  | other (code : Nat)
deriving DecidableEq

/-- Decoded NTP message fields read by ntp.rs: version, mode and the
reference id. -/
structure NtpMsg where
  version : Nat
  mode : NtpMode
  ref_id : Nat
deriving DecidableEq

/-- Result of the black-box parse_ntp decoder (ntp_parser crate, not in
src/). -/
inductive NtpRes where
  | ok (msg : NtpMsg)
  | incomplete
  | error
deriving DecidableEq

/-- NTPEvent codes from ntp.rs: UnsolicitedResponse = 0, MalformedData =
1, NotRequest = 2, NotResponse = 3. -/
def NTP_EV_MALFORMED : Nat := 1

/-- NTPTransaction from ntp.rs. -/
structure NTPTransaction where
  xid : Nat
  id : Nat
  events : List Nat
deriving DecidableEq

/-- NTPTransaction::new(id). -/
def NTPTransaction.new (id : Nat) : NTPTransaction := ⟨0, id, []⟩

/-- NTPState from ntp.rs. -/
structure NTPState where
  transactions : List NTPTransaction
  events : Nat
  tx_id : Nat
deriving DecidableEq

/-- NTPState::new(). -/
def NTPState.new : NTPState := ⟨[], 0, 0⟩

/-- NTPState::new_tx. -/
def NTPState.new_tx (st : NTPState) : NTPState × NTPTransaction :=
  ({ st with tx_id := st.tx_id + 1 }, NTPTransaction.new (st.tx_id + 1))

/-- NTPState::get_tx_by_id: first transaction whose id is `tx_id + 1`. -/
def NTPState.get_tx_by_id (st : NTPState) (tx_id : Nat) : Option NTPTransaction :=
  st.transactions.find? (fun tx => tx.id = tx_id + 1)

/-- NTPState::free_tx (release semantics: the debug_assert is a no-op). -/
def NTPState.free_tx (st : NTPState) (tx_id : Nat) : NTPState :=
  { st with transactions :=
      remove_first_id NTPTransaction.id (tx_id + 1) st.transactions }

/-- Append an event code to the last NTP transaction, if any. -/
def ntp_set_last_event (ev : Nat) : List NTPTransaction → List NTPTransaction
  | [] => []
  | [tx] => [{ tx with events := tx.events ++ [ev] }]
  | tx :: b :: bs => tx :: ntp_set_last_event ev (b :: bs)

/-- NTPState::set_event: set the event on the most recent transaction and
bump the events counter (only when such a transaction exists). -/
def NTPState.set_event (st : NTPState) (ev : Nat) : NTPState :=
  match st.transactions with
  | [] => st
  | _ :: _ =>
    { st with transactions := ntp_set_last_event ev st.transactions,
              events := st.events + 1 }

/-- NTPState::parse: on a decoded message in client or symmetric-active
mode, create one transaction whose xid is the message's reference id;
other modes create nothing; decode failures raise MalformedData and
return -1. -/
def NTPState.parse (p : List Nat → NtpRes) (st : NTPState) (i : List Nat) :
    NTPState × Int :=
  match p i with
  | .ok msg =>
    if msg.mode = NtpMode.symmetricActive ∨ msg.mode = NtpMode.client then
      let q := st.new_tx
      let tx := { q.2 with xid := msg.ref_id }
      ({ q.1 with transactions := q.1.transactions ++ [tx] }, 0)
    else (st, 0)
  | .incomplete => (st.set_event NTP_EV_MALFORMED, -1)
  | .error => (st.set_event NTP_EV_MALFORMED, -1)

/-- rs_ntp_parse_request: Error when NTPState::parse reports failure, Ok
otherwise. -/
def rs_ntp_parse_request (p : List Nat → NtpRes) (st : NTPState) (buf : List Nat) :
    NTPState × AppLayerResult :=
  let q := st.parse p buf
  if q.2 < 0 then (q.1, AppLayerResult.err) else (q.1, AppLayerResult.ok)

/-- rs_ntp_parse_response: same body as the request direction. -/
def rs_ntp_parse_response (p : List Nat → NtpRes) (st : NTPState) (buf : List Nat) :
    NTPState × AppLayerResult :=
  let q := st.parse p buf
  if q.2 < 0 then (q.1, AppLayerResult.err) else (q.1, AppLayerResult.ok)

/-- rs_ntp_state_get_tx_count: returns the running id counter. -/
def rs_ntp_state_get_tx_count (st : NTPState) : Nat := st.tx_id

/-- ntp_probing_parser from ntp.rs (name shortened): confirm NTP for
versions 3 and 4, reject other versions and decode errors, stay undecided
on need-more-data. -/
def ntp_probing (p : List Nat → NtpRes) (input : List Nat) : AppProtoVal :=
  match p input with
  | .ok msg =>
    if msg.version = 3 ∨ msg.version = 4 then .ntp else .failed
  | .incomplete => .unknown
  | .error => .failed

/-! ## IKE (src/rust/src/ike/ike.rs) -/

/-- ISAKMP header fields read by ike.rs (ike/parser.rs, not in src/). -/
structure IsakmpHeader where
  maj_ver : Nat
  min_ver : Nat
  exch_type : Nat
  resp_spi : Nat
  length : Nat
deriving DecidableEq

/-- Result of the black-box parse_isakmp_header (ike/parser.rs, not in
src/): header plus consumed byte count, need-more-data, or error. -/
inductive IsakmpRes where
  | ok (n : Nat) (hdr : IsakmpHeader)
  | incomplete
  | error
deriving DecidableEq

/-- IKETransaction from ike.rs, restricted to the fields the embedded
operations touch. -/
structure IKETransaction where
  tx_id : Nat
  ike_version : Nat
  events : List Nat
deriving DecidableEq

/-- IKEState from ike.rs; the ikev1/ikev2 containers live in
ike/ikev1.rs and ike/ikev2.rs (not in src/) and are modelled as opaque
numeric fields that only the black-box handlers may change. -/
structure IKEState where
  tx_id : Nat
  transactions : List IKETransaction
  ikev1_container : Nat
  ikev2_container : Nat
deriving DecidableEq

/-- IKEState::default(). -/
def IKEState.default : IKEState := ⟨0, [], 0, 0⟩

/-- Type of the black-box handle_ikev1 / handle_ikev2 state transformers
(ike/ikev1.rs, ike/ikev2.rs, not in src/): current state, remaining
input, decoded header, direction. -/
def IkeHandler := IKEState → List Nat → IsakmpHeader → Nat → IKEState

/-- IKEState::handle_input: empty input returns Ok untouched; a decoded
ISAKMP header dispatches on the major version (1 → handle_ikev1, 2 →
handle_ikev2, anything else → Error), and any decoder failure (including
need-more-data) is an Error. -/
def IKEState.handle_input (pih : List Nat → IsakmpRes) (hv1 hv2 : IkeHandler)
    (st : IKEState) (input : List Nat) (direction : Nat) :
    IKEState × AppLayerResult :=
  if input.length = 0 then (st, AppLayerResult.ok)
  else
    match pih input with
    | .ok n hdr =>
      let current := input.drop n
      if hdr.maj_ver ≠ 1 ∧ hdr.maj_ver ≠ 2 then (st, AppLayerResult.err)
      else if hdr.maj_ver = 1 then (hv1 st current hdr direction, AppLayerResult.ok)
      else (hv2 st current hdr direction, AppLayerResult.ok)
    | .incomplete => (st, AppLayerResult.err)
    | .error => (st, AppLayerResult.err)

/-- The inner probe function from ike.rs: returns whether the buffer
looks like IKE, plus the direction-swap request written through rdir
(modelled as an optional value). -/
def ike_probe (pih : List Nat → IsakmpRes) (input : List Nat) (direction : Nat) :
    Bool × Option Nat :=
  match pih input with
  | .ok _ hdr =>
    if hdr.maj_ver = 1 then
      (true, if hdr.resp_spi = 0 ∧ direction ≠ STREAM_TOSERVER
             then some STREAM_TOSERVER else none)
    else if hdr.maj_ver = 2 then
      if hdr.min_ver ≠ 0 then (false, none)
      else if hdr.exch_type < 34 ∨ hdr.exch_type > 37 then (false, none)
      else if hdr.length ≠ input.length then (false, none)
      else (true, if hdr.resp_spi = 0 ∧ direction ≠ STREAM_TOSERVER
                  then some STREAM_TOSERVER else none)
    else (false, none)
  | .incomplete => (false, none)
  | .error => (false, none)

/-- rs_ike_probing_parser from ike.rs (name shortened): buffers shorter
than the 28-byte ISAKMP header are rejected outright (deliberately not
ALPROTO_UNKNOWN, because the transport is UDP); otherwise the inner probe
decides between the IKE protocol and ALPROTO_FAILED. -/
def rs_ike_probing (pih : List Nat → IsakmpRes) (direction : Nat)
    (input : List Nat) : AppProtoVal :=
  if input.length < 28 then .failed
  else if (ike_probe pih input direction).1 then .ike
  else .failed

/-- rs_ike_state_get_tx_count: returns the running id counter. -/
def rs_ike_state_get_tx_count (st : IKEState) : Nat := st.tx_id

/-! ## Concrete instances used by closed counterexample/evaluation
theorems -/

/-- Concrete Kerberos decoder used by closed evaluation theorems: the DER
reader accepts exactly the byte string [1,2,3,4] as an APPLICATION tag-11
header (2 header bytes) and reports need-more-data on everything else;
the AS-REP decoder accepts the same bytes with strong encryption type 18. -/
def kd0 : KrbDecoder :=
  { der := fun i => if i = [1, 2, 3, 4] then .ok 2 ⟨BerClass.application, 11⟩
                    else .incomplete,
    as_rep := fun i => if i = [1, 2, 3, 4] then some ⟨100, 200, 300, 18⟩ else none,
    tgs_rep := fun _ => none,
    krb_error := fun _ => none }

/-- Feed a sequence of buffers to rs_krb5_parse_request_tcp, keeping the
evolving state (the result of each call is discarded, as the host only
inspects the state afterwards). -/
def krb5_feed_ts (kd : KrbDecoder) : KRB5State → List (List Nat) → KRB5State
  | st, [] => st
  | st, c :: cs => krb5_feed_ts kd (rs_krb5_parse_request_tcp kd st c).1 cs

/-- Concrete ISAKMP decoder for closed probe theorems: need-more-data on
buffers shorter than a full 28-byte ISAKMP header, error otherwise. -/
def ikeDec0 : List Nat → IsakmpRes :=
  fun i => if i.length < 28 then .incomplete else .error

/-- The 100001-byte buffer used by the C6 counterexample: a record mark
of 1000000000 followed by 99997 filler bytes. -/
def krb5_big_input : List Nat := 59 :: 154 :: 202 :: 0 :: List.replicate 99997 0

/-- MQTT decoder for closed witness theorems: need-more-data on buffers
of at most 3 bytes, error otherwise. -/
def pm0 : MQTTDecoder :=
  fun i _ _ => if i.length ≤ 3 then .incomplete else .error

/-- NTP decoder for closed witness theorems: decodes any 48-byte buffer
as a version-4 client-mode message with reference id 7, and any 47-byte
buffer as a version-4 message with unrecognized mode 7; everything else
is need-more-data. -/
def ntpDec0 : List Nat → NtpRes :=
  fun i =>
    if i.length = 48 then .ok ⟨4, NtpMode.client, 7⟩
    else if i.length = 47 then .ok ⟨4, NtpMode.other 7, 7⟩
    else .incomplete

/-! ## Invariants and concrete fixtures -/

/-- Well-formedness of a list of internal transaction ids with respect to
the running id counter: strictly increasing in store order (hence unique),
1-based, and never beyond the counter. -/
def IdsOk (ids : List Nat) (ctr : Nat) : Prop :=
  ids.Pairwise (· < ·) ∧ ∀ i ∈ ids, 1 ≤ i ∧ i ≤ ctr

instance (ids : List Nat) (ctr : Nat) : Decidable (IdsOk ids ctr) := by
  unfold IdsOk
  infer_instance

/-- Transaction-store invariant of an MQTT flow state. -/
def MqttInv (st : MQTTState) : Prop :=
  IdsOk (st.transactions.map MQTTTransaction.tx_id) st.tx_id

instance (st : MQTTState) : Decidable (MqttInv st) := by
  unfold MqttInv
  infer_instance

/-- Transaction-store invariant of a KRB5 flow state. -/
def Krb5Inv (st : KRB5State) : Prop :=
  IdsOk (st.transactions.map KRB5Transaction.id) st.tx_id

instance (st : KRB5State) : Decidable (Krb5Inv st) := by
  unfold Krb5Inv
  infer_instance

/-- Transaction-store invariant of an NTP flow state. -/
def NtpInv (st : NTPState) : Prop :=
  IdsOk (st.transactions.map NTPTransaction.id) st.tx_id

instance (st : NTPState) : Decidable (NtpInv st) := by
  unfold NtpInv
  infer_instance

/-- A connected MQTT state with the default 1MB message limit, used by
closed witness theorems. -/
def mqttConn0 : MQTTState := { MQTTState.new 1048576 with connected := true }

/-- A KRB5 state with a pending 1-byte record and 100000 buffered bytes,
used by the C6 witness. -/
def krb5_pending_big : KRB5State :=
  { KRB5State.new with record_ts := 1, record_tc := 1,
                       defrag_buf_ts := List.replicate 100000 0,
                       defrag_buf_tc := List.replicate 100000 0 }

/-! ## Helper lemmas -/

/-- usize_sub computes exact subtraction when no underflow occurs. -/
theorem usize_sub_eq_sub (a b : Nat) (hba : b ≤ a) (ha : a < U64) :
    usize_sub a b = a - b := by
  unfold usize_sub
  have h1 : a + U64 - b = (a - b) + U64 := by omega
  rw [h1, Nat.add_mod_right, Nat.mod_eq_of_lt (by omega)]

/-- u32of is the identity below 2^32. -/
theorem u32of_eq (n : Nat) (h : n < U32) : u32of n = n :=
  Nat.mod_eq_of_lt h

/-- After removing the first element with id `k` from a store whose ids
are strictly increasing, no element with id `k` remains. -/
theorem find?_remove_first_none {α : Type} (idf : α → Nat) (k : Nat) :
    ∀ l : List α, (l.map idf).Pairwise (· < ·) →
      (remove_first_id idf k l).find? (fun a => idf a = k) = none := by
  intro l
  induction l with
  | nil => intro _; rfl
  | cons a l ih =>
    intro hpw
    rw [List.map_cons, List.pairwise_cons] at hpw
    rw [remove_first_id]
    by_cases hpa : idf a = k
    · simp only [hpa, if_true]
      rw [List.find?_eq_none]
      intro x hx
      simp only [decide_eq_true_eq]
      have hlt : idf a < idf x := hpw.1 (idf x) (List.mem_map_of_mem idf hx)
      omega
    · simp only [hpa, if_false]
      rw [List.find?_cons]
      have hpa' : (decide (idf a = k)) = false := by simp [hpa]
      simp only [hpa', Bool.false_eq_true, if_false]
      exact ih hpw.2

/-- remove_first_id yields a sublist of its input. -/
theorem remove_first_id_sublist {α : Type} (idf : α → Nat) (k : Nat) :
    ∀ l : List α, (remove_first_id idf k l).Sublist l := by
  intro l
  induction l with
  | nil => exact List.Sublist.refl _
  | cons a l ih =>
    rw [remove_first_id]
    by_cases hpa : idf a = k
    · simp only [hpa, if_true]
      exact List.sublist_cons_self a l
    · simp only [hpa, if_false]
      exact List.Sublist.cons₂ a ih

/-- If some element matches the id, remove_first_id shortens the list by
exactly one. -/
theorem remove_first_id_length {α : Type} (idf : α → Nat) (k : Nat) :
    ∀ l : List α, l.find? (fun a => idf a = k) ≠ none →
      (remove_first_id idf k l).length + 1 = l.length := by
  intro l
  induction l with
  | nil => intro h; simp at h
  | cons a l ih =>
    intro h
    rw [remove_first_id]
    by_cases hpa : idf a = k
    · simp [hpa]
    · have hfa : (decide (idf a = k)) = false := by simp [hpa]
      rw [List.find?_cons, hfa] at h
      simp only [hpa, if_false, List.length_cons]
      have := ih (by simpa using h)
      omega

/-- find? for the id-equality predicate yields an element of the list
with exactly that id. -/
theorem find?_id_spec {α : Type} (idf : α → Nat) (k : Nat) (l : List α) (a : α)
    (h : l.find? (fun x => idf x = k) = some a) : idf a = k ∧ a ∈ l := by
  constructor
  · have := List.find?_some h
    simpa using this
  · exact List.mem_of_find?_eq_some h

/-- IdsOk survives appending the freshly incremented counter value. -/
theorem IdsOk.push (ids : List Nat) (ctr : Nat) (h : IdsOk ids ctr) :
    IdsOk (ids ++ [ctr + 1]) (ctr + 1) := by
  obtain ⟨hpw, hbd⟩ := h
  constructor
  · rw [List.pairwise_append]
    refine ⟨hpw, List.pairwise_singleton _ _, ?_⟩
    intro x hx y hy
    rcases List.mem_singleton.mp hy with rfl
    have := (hbd x hx).2
    omega
  · intro i hi
    rcases List.mem_append.mp hi with hil | his
    · have := hbd i hil
      omega
    · rcases List.mem_singleton.mp his with rfl
      omega

/-- IdsOk is inherited by sublists of the store. -/
theorem IdsOk.sublist {ids ids' : List Nat} {ctr : Nat}
    (hs : ids'.Sublist ids) (h : IdsOk ids ctr) : IdsOk ids' ctr :=
  ⟨h.1.sublist hs, fun i hi => h.2 i (hs.mem hi)⟩

/-- IdsOk still holds after only bumping the counter. -/
theorem IdsOk.mono {ids : List Nat} {ctr ctr' : Nat}
    (hc : ctr ≤ ctr') (h : IdsOk ids ctr) : IdsOk ids ctr' :=
  ⟨h.1, fun i hi => ⟨(h.2 i hi).1, le_trans (h.2 i hi).2 hc⟩⟩

/-- ack_update never changes the stored transaction ids. -/
theorem ack_update_map_tx_id (k : Nat) (m : MQTTMessage) :
    ∀ txs txs1, ack_update k m txs = some txs1 →
      txs1.map MQTTTransaction.tx_id = txs.map MQTTTransaction.tx_id := by
  intro txs
  induction txs with
  | nil => intro txs1 h; simp [ack_update] at h
  | cons tx rest ih =>
    intro txs1 h
    rw [ack_update] at h
    split at h
    · cases h
      simp
    · revert h
      split
      · rename_i rest1 hrest
        intro h
        cases h
        simp [ih rest1 hrest]
      · intro h
        cases h

/-- rec_update never changes the stored transaction ids. -/
theorem rec_update_map_tx_id (k : Nat) (m : MQTTMessage) :
    ∀ txs txs1, rec_update k m txs = some txs1 →
      txs1.map MQTTTransaction.tx_id = txs.map MQTTTransaction.tx_id := by
  intro txs
  induction txs with
  | nil => intro txs1 h; simp [rec_update] at h
  | cons tx rest ih =>
    intro txs1 h
    rw [rec_update] at h
    split at h
    · cases h
      simp
    · revert h
      split
      · rename_i rest1 hrest
        intro h
        cases h
        simp [ih rest1 hrest]
      · intro h
        cases h

/-- push_tx appends exactly one transaction carrying the freshly
incremented id, provided the branch mutation leaves the id alone. -/
theorem MQTTState.push_tx_ids (st : MQTTState) (m : MQTTMessage) (tc : Bool)
    (f : MQTTTransaction → MQTTTransaction) (hf : ∀ tx, (f tx).tx_id = tx.tx_id) :
    (st.push_tx m tc f).tx_id = st.tx_id + 1 ∧
    (st.push_tx m tc f).transactions.map MQTTTransaction.tx_id
      = st.transactions.map MQTTTransaction.tx_id ++ [st.tx_id + 1] := by
  constructor
  · rfl
  · simp [MQTTState.push_tx, MQTTState.new_tx, hf]

/-- handle_msg either leaves the id counter and the stored ids untouched
(correlation update in place), or creates exactly one transaction with
the incremented counter as its id. -/
theorem MQTTState.handle_msg_ids (st : MQTTState) (m : MQTTMessage) (tc : Bool) :
    ((st.handle_msg m tc).tx_id = st.tx_id ∧
     (st.handle_msg m tc).transactions.map MQTTTransaction.tx_id
       = st.transactions.map MQTTTransaction.tx_id) ∨
    ((st.handle_msg m tc).tx_id = st.tx_id + 1 ∧
     (st.handle_msg m tc).transactions.map MQTTTransaction.tx_id
       = st.transactions.map MQTTTransaction.tx_id ++ [st.tx_id + 1]) := by
  rcases m with ⟨hdr, op⟩
  cases op <;>
    simp only [MQTTState.handle_msg] <;>
    (repeat' split) <;>
    first
    | (exact Or.inl ⟨rfl, ack_update_map_tx_id _ _ _ _ (by assumption)⟩)
    | (exact Or.inl ⟨rfl, rec_update_map_tx_id _ _ _ _ (by assumption)⟩)
    | (refine Or.inr ⟨rfl, ?_⟩
       simp [MQTTState.push_tx, MQTTState.new_tx, MQTTState.set_event,
             MQTTTransaction.new])

/-- set_last_event does not change the stored KRB5 transaction ids. -/
theorem set_last_event_map_id (ev : Nat) :
    ∀ l : List KRB5Transaction,
      (set_last_event ev l).map KRB5Transaction.id = l.map KRB5Transaction.id := by
  intro l
  induction l with
  | nil => rfl
  | cons tx rest ih =>
    cases rest with
    | nil => simp [set_last_event]
    | cons b bs =>
      rw [set_last_event]
      simp only [List.map_cons]
      rw [ih]
      simp

/-- ntp_set_last_event does not change the stored NTP transaction ids. -/
theorem ntp_set_last_event_map_id (ev : Nat) :
    ∀ l : List NTPTransaction,
      (ntp_set_last_event ev l).map NTPTransaction.id = l.map NTPTransaction.id := by
  intro l
  induction l with
  | nil => rfl
  | cons tx rest ih =>
    cases rest with
    | nil => simp [ntp_set_last_event]
    | cons b bs =>
      rw [ntp_set_last_event]
      simp only [List.map_cons]
      rw [ih]
      simp

/-- KRB5State::parse either leaves the id counter and stored ids
untouched, or creates exactly one transaction carrying the incremented
counter as its id. -/
theorem krb5_parse_ids (kd : KrbDecoder) (st : KRB5State) (i : List Nat) :
    (((st.parse kd i).1.tx_id = st.tx_id ∧
      (st.parse kd i).1.transactions.map KRB5Transaction.id
        = st.transactions.map KRB5Transaction.id)) ∨
    (((st.parse kd i).1.tx_id = st.tx_id + 1 ∧
      (st.parse kd i).1.transactions.map KRB5Transaction.id
        = st.transactions.map KRB5Transaction.id ++ [st.tx_id + 1])) := by
  rcases hder : kd.der i with ⟨n, hdr⟩ | _ | _ <;>
    simp only [KRB5State.parse, hder] <;>
    (repeat' split) <;>
    first
    | (exact Or.inl ⟨rfl, rfl⟩)
    | (refine Or.inl ⟨rfl, ?_⟩
       simp [KRB5State.set_event, set_last_event_map_id])
    | (refine Or.inr ⟨rfl, ?_⟩
       simp [KRB5State.new_tx, KRB5Transaction.new, KRB5State.set_event,
             set_last_event_map_id])

/-- NTPState::set_event changes neither the id counter nor the stored
ids. -/
theorem NTPState.set_event_ids (st : NTPState) (ev : Nat) :
    (st.set_event ev).tx_id = st.tx_id ∧
    (st.set_event ev).transactions.map NTPTransaction.id
      = st.transactions.map NTPTransaction.id := by
  unfold NTPState.set_event
  split
  · exact ⟨rfl, rfl⟩
  · exact ⟨rfl, by simp [ntp_set_last_event_map_id]⟩

/-- NTPState::parse either leaves the id counter and stored ids
untouched, or creates exactly one transaction carrying the incremented
counter as its id. -/
theorem ntp_parse_ids (p : List Nat → NtpRes) (st : NTPState) (i : List Nat) :
    (((st.parse p i).1.tx_id = st.tx_id ∧
      (st.parse p i).1.transactions.map NTPTransaction.id
        = st.transactions.map NTPTransaction.id)) ∨
    (((st.parse p i).1.tx_id = st.tx_id + 1 ∧
      (st.parse p i).1.transactions.map NTPTransaction.id
        = st.transactions.map NTPTransaction.id ++ [st.tx_id + 1])) := by
  rcases hp : p i with msg | _ | _ <;>
    simp only [NTPState.parse, hp] <;>
    (repeat' split) <;>
    first
    | (exact Or.inl ⟨rfl, rfl⟩)
    | (exact Or.inl (st.set_event_ids NTP_EV_MALFORMED))
    | (refine Or.inr ⟨rfl, ?_⟩
       simp [NTPState.new_tx, NTPTransaction.new])

/-- handle_msg preserves the MQTT transaction-store invariant. -/
theorem MQTTState.handle_msg_inv (st : MQTTState) (m : MQTTMessage) (tc : Bool)
    (h : MqttInv st) : MqttInv (st.handle_msg m tc) := by
  rcases st.handle_msg_ids m tc with ⟨h1, h2⟩ | ⟨h1, h2⟩
  · unfold MqttInv at h ⊢
    rw [h1, h2]
    exact h
  · unfold MqttInv at h ⊢
    rw [h1, h2]
    exact h.push _ _

/-- free_tx preserves the MQTT transaction-store invariant. -/
theorem mqtt_free_tx_inv (st : MQTTState) (e : Nat) (h : MqttInv st) :
    MqttInv (st.free_tx e) := by
  unfold MqttInv at h ⊢
  unfold MQTTState.free_tx
  exact h.sublist ((remove_first_id_sublist _ _ _).map _)

/-- KRB5State::parse preserves the KRB5 transaction-store invariant. -/
theorem KRB5State.parse_inv (kd : KrbDecoder) (st : KRB5State) (i : List Nat)
    (h : Krb5Inv st) : Krb5Inv (st.parse kd i).1 := by
  rcases krb5_parse_ids kd st i with ⟨h1, h2⟩ | ⟨h1, h2⟩
  · unfold Krb5Inv at h ⊢
    rw [h1, h2]
    exact h
  · unfold Krb5Inv at h ⊢
    rw [h1, h2]
    exact h.push _ _

/-- free_tx preserves the KRB5 transaction-store invariant. -/
theorem krb5_free_tx_inv (st : KRB5State) (e : Nat) (h : Krb5Inv st) :
    Krb5Inv (st.free_tx e) := by
  unfold Krb5Inv at h ⊢
  unfold KRB5State.free_tx
  exact h.sublist ((remove_first_id_sublist _ _ _).map _)

/-- get_tx returns a stored transaction with exactly the requested
external id plus one. -/
theorem mqtt_get_tx_spec (st : MQTTState) (e : Nat) (tx : MQTTTransaction)
    (h : st.get_tx e = some tx) : tx.tx_id = e + 1 ∧ tx ∈ st.transactions :=
  find?_id_spec MQTTTransaction.tx_id (e + 1) st.transactions tx h

/-- After free_tx, get_tx for the same external id returns nothing. -/
theorem mqtt_free_get_none (st : MQTTState) (e : Nat) (h : MqttInv st) :
    (st.free_tx e).get_tx e = none := by
  unfold MQTTState.free_tx MQTTState.get_tx
  exact find?_remove_first_none MQTTTransaction.tx_id (e + 1) st.transactions h.1

/-- get_tx_by_id returns a stored transaction with exactly the requested
external id plus one. -/
theorem krb5_get_tx_spec (st : KRB5State) (e : Nat) (tx : KRB5Transaction)
    (h : st.get_tx_by_id e = some tx) : tx.id = e + 1 ∧ tx ∈ st.transactions :=
  find?_id_spec KRB5Transaction.id (e + 1) st.transactions tx h

/-- After free_tx, get_tx_by_id for the same external id returns
nothing. -/
theorem krb5_free_get_none (st : KRB5State) (e : Nat) (h : Krb5Inv st) :
    (st.free_tx e).get_tx_by_id e = none := by
  unfold KRB5State.free_tx KRB5State.get_tx_by_id
  exact find?_remove_first_none KRB5Transaction.id (e + 1) st.transactions h.1

/-- Every yield of the iterator loop is a stored transaction at or above
the requested minimum, exposed under external id `tx_id - 1`. -/
theorem mqtt_iter_go_spec (min_tx_id : Nat) :
    ∀ (l : List MQTTTransaction) (index total : Nat) tx eid more cur1,
      mqtt_iter_go min_tx_id l index total = some (tx, eid, more, cur1) →
      tx ∈ l ∧ eid = tx.tx_id - 1 ∧ min_tx_id + 1 ≤ tx.tx_id := by
  intro l
  induction l with
  | nil =>
    intro index total tx eid more cur1 h
    simp [mqtt_iter_go] at h
  | cons a l ih =>
    intro index total tx eid more cur1 h
    rw [mqtt_iter_go] at h
    split at h
    · rcases ih _ _ _ _ _ _ h with ⟨h1, h2, h3⟩
      exact ⟨List.mem_cons_of_mem a h1, h2, h3⟩
    · rename_i hge
      cases h
      exact ⟨List.mem_cons_self a l, rfl, by omega⟩

/-- tx_iterator yields stored transactions under external id
`tx_id - 1`. -/
theorem MQTTState.tx_iterator_spec (st : MQTTState)
    (min_tx_id cursor : Nat) (tx : MQTTTransaction) (eid : Nat)
    (more : Bool) (cur1 : Nat)
    (h : st.tx_iterator min_tx_id cursor = some (tx, eid, more, cur1)) :
    tx ∈ st.transactions ∧ eid = tx.tx_id - 1 ∧ min_tx_id + 1 ≤ tx.tx_id := by
  rcases mqtt_iter_go_spec min_tx_id _ _ _ _ _ _ _ h with ⟨h1, h2, h3⟩
  exact ⟨(List.drop_sublist cursor st.transactions).mem h1, h2, h3⟩

/-- truncLen inverts to the TRUNCATED constructor. -/
theorem MQTTOperation.truncLen_eq {op : MQTTOperation} {s : Nat}
    (h : op.truncLen = some s) : op = .TRUNCATED s := by
  cases op <;> simp_all [MQTTOperation.truncLen]

/-- setSkip only writes a skip counter. -/
theorem MQTTState.setSkip_fields (st : MQTTState) (tc : Bool) (v : Nat) :
    (st.setSkip tc v).protocol_version = st.protocol_version ∧
    (st.setSkip tc v).max_msg_len = st.max_msg_len ∧
    (st.setSkip tc v).connected = st.connected ∧
    (st.setSkip tc v).transactions = st.transactions ∧
    (st.setSkip tc v).tx_id = st.tx_id := by
  cases tc <;> simp [MQTTState.setSkip]

/-- Handling a TRUNCATED message touches neither the protocol version nor
the message-length limit. -/
theorem MQTTState.handle_msg_trunc_pv (st : MQTTState) (m : MQTTMessage)
    (tc : Bool) (s : Nat) (h : m.op = .TRUNCATED s) :
    (st.handle_msg m tc).protocol_version = st.protocol_version ∧
    (st.handle_msg m tc).max_msg_len = st.max_msg_len := by
  rcases m with ⟨hdr, op⟩
  simp only at h
  subst h
  simp [MQTTState.handle_msg, MQTTState.push_tx, MQTTState.new_tx]

/-- When the decoder keeps answering with a TRUNCATED message that it
consumed no bytes for and whose skipped length lies inside the buffer,
the parse_request/parse_response loop never terminates (the source loops
forever re-parsing the same buffer), so no result is produced. -/
theorem mqtt_loop_trunc_none (pm : MQTTDecoder) (tc : Bool) (cur : List Nat)
    (msg : MQTTMessage) (s : Nat) (hs : s < cur.length)
    (hop : msg.op.truncLen = some s) :
    ∀ (fuel : Nat) (st : MQTTState) (consumed : Nat),
      pm cur st.protocol_version st.max_msg_len = MQTTParseRes.ok 0 msg →
      mqtt_loop pm tc fuel st consumed cur = none := by
  intro fuel
  induction fuel with
  | zero => intro st consumed _; rfl
  | succ fuel ih =>
    intro st consumed hpm
    cases cur with
    | nil => simp at hs
    | cons b bs =>
      simp only [mqtt_loop, hpm, hop, List.drop_zero]
      rw [if_neg (by omega)]
      apply ih
      have h1 := (st.setSkip tc 0).handle_msg_trunc_pv msg tc s
        (MQTTOperation.truncLen_eq hop)
      have h2 := st.setSkip_fields tc 0
      rw [h1.1, h1.2, h2.1, h2.2.1]
      exact hpm

/-- Accounting invariant of the MQTT parse loop: any Incomplete result
reports consumed ≤ len and strictly more than the remaining bytes, for
a decoder that consumes nothing on truncated messages and signals
need-more-data only on buffers below the u32 range. -/
theorem mqtt_loop_incomplete (pm : MQTTDecoder) (tc : Bool) (len : Nat)
    (Htr : ∀ i v l n msg s, pm i v l = MQTTParseRes.ok n msg →
             msg.op = MQTTOperation.TRUNCATED s → n = 0)
    (Hinc : ∀ i v l, pm i v l = MQTTParseRes.incomplete → i.length + 1 < U32)
    (Hlen : len < U32) :
    ∀ (fuel : Nat) (st : MQTTState) (consumed : Nat) (cur : List Nat)
      (st1 : MQTTState) (r : AppLayerResult),
      consumed + cur.length = len →
      mqtt_loop pm tc fuel st consumed cur = some (st1, r) →
      r.status = 1 →
      r.consumed ≤ len ∧ len < r.consumed + r.needed := by
  have hU : U32 < U64 := by norm_num [U32, U64]
  intro fuel
  induction fuel with
  | zero =>
    intro st consumed cur st1 r _ hrun _
    simp [mqtt_loop] at hrun
  | succ fuel ih =>
    intro st consumed cur st1 r hinv hrun hst
    cases cur with
    | nil =>
      simp only [mqtt_loop, Option.some.injEq, Prod.mk.injEq] at hrun
      rw [← hrun.2] at hst
      simp [AppLayerResult.ok] at hst
    | cons b bs =>
      simp only [mqtt_loop] at hrun
      split at hrun
      · -- need more data
        rename_i hpm
        simp only [Option.some.injEq, Prod.mk.injEq] at hrun
        rw [← hrun.2] at hst ⊢
        have hb : (b :: bs).length + 1 < U32 := Hinc _ _ _ hpm
        have hc : consumed < U32 := by
          have : consumed ≤ len := by omega
          omega
        simp only [AppLayerResult.incomplete]
        rw [u32of_eq _ (by omega), u32of_eq _ hb]
        omega
      · -- decode error
        simp only [Option.some.injEq, Prod.mk.injEq] at hrun
        rw [← hrun.2] at hst
        simp [AppLayerResult.err] at hst
      · -- decoded one message
        rename_i n msg hpm
        split at hrun
        · -- truncated message
          rename_i s htl
          split at hrun
          · -- whole tail skipped: Ok result, not Incomplete
            simp only [Option.some.injEq, Prod.mk.injEq] at hrun
            rw [← hrun.2] at hst
            simp [AppLayerResult.ok] at hst
          · -- skipped length inside the buffer: the loop never returns
            rename_i hsl
            have hn : n = 0 :=
              Htr _ _ _ _ _ s hpm (MQTTOperation.truncLen_eq htl)
            subst hn
            rw [List.drop_zero] at hrun
            rw [mqtt_loop_trunc_none pm tc (b :: bs) msg s (by omega) htl fuel
              ((st.setSkip tc 0).handle_msg msg tc) _ ?_] at hrun
            · cases hrun
            · have h1 := (st.setSkip tc 0).handle_msg_trunc_pv msg tc s
                (MQTTOperation.truncLen_eq htl)
              have h2 := st.setSkip_fields tc 0
              rw [h1.1, h1.2, h2.1, h2.2.1]
              exact hpm
        · -- ordinary message: advance and recurse
          refine ih (st.handle_msg msg tc) _ ((b :: bs).drop n) st1 r ?_ hrun hst
          have hrem : ((b :: bs).drop n).length = (b :: bs).length - n := by
            simp [List.length_drop]
          have hremle : ((b :: bs).drop n).length ≤ (b :: bs).length := by
            rw [hrem]; omega
          have hL : (b :: bs).length < U64 := by omega
          rw [usize_sub_eq_sub _ _ hremle hL]
          have hsum : consumed + ((b :: bs).length - ((b :: bs).drop n).length)
              + ((b :: bs).drop n).length = len := by
            rw [Nat.add_assoc, Nat.sub_add_cancel hremle]
            exact hinv
          rw [Nat.mod_eq_of_lt (by omega)]
          exact hsum

/-- parse_dir-level version of the Incomplete accounting contract. -/
theorem parse_dir_incomplete (pm : MQTTDecoder) (tc : Bool) (fuel : Nat)
    (st st1 : MQTTState) (input : List Nat) (r : AppLayerResult)
    (Htr : ∀ i v l n msg s, pm i v l = MQTTParseRes.ok n msg →
             msg.op = MQTTOperation.TRUNCATED s → n = 0)
    (Hinc : ∀ i v l, pm i v l = MQTTParseRes.incomplete → i.length + 1 < U32)
    (Hlen : input.length < U32)
    (hrun : st.parse_dir pm tc fuel input = some (st1, r))
    (hst : r.status = 1) :
    r.consumed ≤ input.length ∧ input.length < r.consumed + r.needed := by
  unfold MQTTState.parse_dir at hrun
  by_cases h0 : input.length = 0
  · rw [if_pos h0] at hrun
    simp only [Option.some.injEq, Prod.mk.injEq] at hrun
    rw [← hrun.2] at hst
    simp [AppLayerResult.ok] at hst
  · rw [if_neg h0] at hrun
    by_cases hsk : 0 < st.getSkip tc
    · rw [if_pos hsk] at hrun
      by_cases hle : input.length ≤ st.getSkip tc
      · rw [if_pos hle] at hrun
        simp only [Option.some.injEq, Prod.mk.injEq] at hrun
        rw [← hrun.2] at hst
        simp [AppLayerResult.ok] at hst
      · rw [if_neg hle] at hrun
        refine mqtt_loop_incomplete pm tc input.length Htr Hinc Hlen fuel
          (st.setSkip tc 0) (st.getSkip tc) (input.drop (st.getSkip tc)) st1 r
          ?_ hrun hst
        simp only [List.length_drop]
        omega
    · rw [if_neg hsk] at hrun
      exact mqtt_loop_incomplete pm tc input.length Htr Hinc Hlen fuel
        st 0 input st1 r (by omega) hrun hst

/-- ack_update finds nothing when no stored incomplete transaction
carries the key. -/
theorem ack_update_none (k : Nat) (m : MQTTMessage) :
    ∀ txs : List MQTTTransaction,
      (∀ tx ∈ txs, tx.complete = false → tx.pkt_id ≠ some k) →
      ack_update k m txs = none := by
  intro txs
  induction txs with
  | nil => intro _; rfl
  | cons tx rest ih =>
    intro h
    rw [ack_update]
    rw [if_neg]
    · rw [ih (fun tx1 h1 => h tx1 (List.mem_cons_of_mem tx h1))]
    · intro hc
      exact h tx (List.mem_cons_self tx rest) hc.1 hc.2

/-- ack_update on a store whose only key match is a freshly appended
transaction updates exactly that transaction. -/
theorem ack_update_append (k : Nat) (m : MQTTMessage) (tx : MQTTTransaction)
    (htx : tx.complete = false ∧ tx.pkt_id = some k) :
    ∀ txs : List MQTTTransaction,
      (∀ t ∈ txs, t.complete = false → t.pkt_id ≠ some k) →
      ack_update k m (txs ++ [tx])
        = some (txs ++ [{ tx with msg := tx.msg ++ [m], complete := true,
                                  pkt_id := none }]) := by
  intro txs
  induction txs with
  | nil =>
    intro _
    simp only [List.nil_append]
    rw [ack_update]
    rw [if_pos htx]
  | cons t rest ih =>
    intro h
    simp only [List.cons_append]
    rw [ack_update]
    rw [if_neg]
    · rw [ih (fun t1 h1 => h t1 (List.mem_cons_of_mem t h1))]
    · intro hc
      exact h t (List.mem_cons_self t rest) hc.1 hc.2

/-- In an established session, a PUBLISH with QoS 1 or 2 and a packet id
appends one incomplete transaction keyed by that id. -/
theorem handle_publish_keyed (st : MQTTState) (hdr : FixedHeader) (k : Nat)
    (tc : Bool) (hconn : st.connected = true) (hq : hdr.qos_level = 1 ∨ hdr.qos_level = 2) :
    st.handle_msg ⟨hdr, .PUBLISH (some k)⟩ tc
      = { st with
          tx_id := st.tx_id + 1,
          transactions := st.transactions ++
            [⟨st.tx_id + 1, some k, [⟨hdr, .PUBLISH (some k)⟩], false, tc, !tc, []⟩] } := by
  rcases hq with hq | hq <;>
    simp [MQTTState.handle_msg, hconn, hq, MQTTState.push_tx, MQTTState.new_tx,
          MQTTTransaction.new]

/-- In an established session, a PUBACK or PUBCOMP whose id matches no
pending incomplete transaction appends one transaction carrying the
MissingPublish event (and nothing else changes). -/
theorem handle_ack_unmatched (st : MQTTState) (amsg : MQTTMessage) (k : Nat)
    (tc : Bool) (hconn : st.connected = true)
    (hop : amsg.op = .PUBACK k ∨ amsg.op = .PUBCOMP k)
    (hnp : ∀ tx ∈ st.transactions, tx.complete = false → tx.pkt_id ≠ some k) :
    st.handle_msg amsg tc
      = { st with
          tx_id := st.tx_id + 1,
          transactions := st.transactions ++
            [⟨st.tx_id + 1, none, [amsg], false, tc, !tc,
              [MQTTEvent.MissingPublish]⟩] } := by
  rcases amsg with ⟨hdr, op⟩
  rcases hop with hop | hop <;>
    (simp only at hop
     subst hop
     simp [MQTTState.handle_msg, hconn, ack_update_none k _ _ hnp,
           MQTTState.push_tx, MQTTState.new_tx, MQTTTransaction.new,
           MQTTState.set_event])

/-- In an established session, a PUBACK or PUBCOMP whose id matches only
the last stored (pending) transaction completes that transaction, appends
the acknowledgement to it and clears its key; no transaction is
created. -/
theorem handle_ack_matched (st0 : MQTTState) (amsg : MQTTMessage)
    (l : List MQTTTransaction) (tx : MQTTTransaction) (k : Nat) (tc : Bool)
    (hconn : st0.connected = true)
    (hop : amsg.op = .PUBACK k ∨ amsg.op = .PUBCOMP k)
    (htxs : st0.transactions = l ++ [tx])
    (htx : tx.complete = false ∧ tx.pkt_id = some k)
    (hnp : ∀ t ∈ l, t.complete = false → t.pkt_id ≠ some k) :
    st0.handle_msg amsg tc
      = { st0 with transactions := l ++
            [{ tx with msg := tx.msg ++ [amsg], complete := true,
                       pkt_id := none }] } := by
  rcases amsg with ⟨hdr, op⟩
  rcases hop with hop | hop <;>
    (simp only at hop
     subst hop
     simp [MQTTState.handle_msg, hconn, htxs, ack_update_append k _ tx htx _ hnp])

/-- A strictly increasing list of ids drawn from 1..ctr has at most ctr
elements. -/
theorem IdsOk.length_le (ids : List Nat) (ctr : Nat) (h : IdsOk ids ctr) :
    ids.length ≤ ctr := by
  obtain ⟨hpw, hbd⟩ := h
  have hnd : ids.Nodup := hpw.imp Nat.ne_of_lt
  have hsub : ids.toFinset ⊆ Finset.Icc 1 ctr := by
    intro x hx
    rw [List.mem_toFinset] at hx
    rcases hbd x hx with ⟨h1, h2⟩
    exact Finset.mem_Icc.mpr ⟨h1, h2⟩
  have hc := Finset.card_le_card hsub
  rw [List.toFinset_card_of_nodup hnd] at hc
  simpa [Nat.card_Icc] using hc

/-- free_tx removes exactly one stored transaction when the id is
present. -/
theorem mqtt_free_tx_length (st : MQTTState) (e : Nat)
    (tx : MQTTTransaction) (h : st.get_tx e = some tx) :
    (st.free_tx e).transactions.length + 1 = st.transactions.length := by
  unfold MQTTState.free_tx
  refine remove_first_id_length MQTTTransaction.tx_id (e + 1) st.transactions ?_
  unfold MQTTState.get_tx at h
  rw [h]
  simp

/-- free_tx removes exactly one stored NTP transaction when the id is
present. -/
theorem ntp_free_tx_length (st : NTPState) (e : Nat)
    (tx : NTPTransaction) (h : st.get_tx_by_id e = some tx) :
    (st.free_tx e).transactions.length + 1 = st.transactions.length := by
  unfold NTPState.free_tx
  refine remove_first_id_length NTPTransaction.id (e + 1) st.transactions ?_
  unfold NTPState.get_tx_by_id at h
  rw [h]
  simp

/-- be_u32 consumes exactly four bytes when it succeeds. -/
theorem be_u32_length {i : List Nat} {r : Nat} {rest : List Nat}
    (h : be_u32 i = some (r, rest)) : i.length = rest.length + 4 := by
  match i with
  | [] => simp [be_u32] at h
  | [_] => simp [be_u32] at h
  | [_, _] => simp [be_u32] at h
  | [_, _, _] => simp [be_u32] at h
  | a :: b :: c :: d :: t =>
    simp only [be_u32, Option.some.injEq, Prod.mk.injEq] at h
    rw [← h.2]
    simp

/-! ## Claim theorems -/

/-- C10: calling the MQTT parse_request/parse_response or the IKE
handle_input entry point with an empty input buffer returns Ok and leaves
the entire state unchanged: no transaction is created, no event is
raised, and no session or skip-counter field is modified. -/
theorem empty_input_is_noop :
    (∀ (pm : MQTTDecoder) (fuel : Nat) (st : MQTTState),
       st.parse_request pm fuel [] = some (st, AppLayerResult.ok)) ∧
    (∀ (pm : MQTTDecoder) (fuel : Nat) (st : MQTTState),
       st.parse_response pm fuel [] = some (st, AppLayerResult.ok)) ∧
    (∀ (pih : List Nat → IsakmpRes) (hv1 hv2 : IkeHandler) (st : IKEState)
       (dir : Nat),
       IKEState.handle_input pih hv1 hv2 st [] dir = (st, AppLayerResult.ok)) := by
  refine ⟨?_, ?_, ?_⟩ <;> intros <;>
    simp [MQTTState.parse_request, MQTTState.parse_response,
          MQTTState.parse_dir, IKEState.handle_input]

/-- C8: a datagram decoding as an NTP message with version 4 and client
mode makes one parse call create exactly one new transaction whose xid
equals the message's reference id, with status Ok; the same datagram with
an unrecognized (non-client, non-symmetric-active) mode creates zero
transactions and still returns Ok. -/
theorem ntp_client_datagram (p : List Nat → NtpRes) (st : NTPState)
    (i : List Nat) (msg : NtpMsg) (hok : p i = NtpRes.ok msg) :
    (msg.version = 4 → msg.mode = NtpMode.client →
       st.parse p i
         = ({ st with
              tx_id := st.tx_id + 1,
              transactions := st.transactions ++ [⟨msg.ref_id, st.tx_id + 1, []⟩] },
            0) ∧
       rs_ntp_parse_request p st i
         = ({ st with
              tx_id := st.tx_id + 1,
              transactions := st.transactions ++ [⟨msg.ref_id, st.tx_id + 1, []⟩] },
            AppLayerResult.ok)) ∧
    (∀ c, msg.mode = NtpMode.other c →
       st.parse p i = (st, 0) ∧
       rs_ntp_parse_request p st i = (st, AppLayerResult.ok)) := by
  constructor
  · intro _ hm
    have hp : st.parse p i
        = ({ st with
             tx_id := st.tx_id + 1,
             transactions := st.transactions ++ [⟨msg.ref_id, st.tx_id + 1, []⟩] },
           0) := by
      simp [NTPState.parse, hok, hm, NTPState.new_tx, NTPTransaction.new]
    refine ⟨hp, ?_⟩
    unfold rs_ntp_parse_request
    rw [hp]
    simp
  · intro c hm
    have hp : st.parse p i = (st, 0) := by
      simp [NTPState.parse, hok, hm]
    refine ⟨hp, ?_⟩
    unfold rs_ntp_parse_request
    rw [hp]
    simp

/-- Witness for C8 at a concrete decoder and datagram. -/
theorem ntp_client_datagram_witness :
    NTPState.parse ntpDec0 NTPState.new (List.replicate 48 0)
      = ({ NTPState.new with tx_id := 1, transactions := [⟨7, 1, []⟩] }, 0) ∧
    NTPState.parse ntpDec0 NTPState.new (List.replicate 47 0)
      = (NTPState.new, 0) := by
  constructor
  · exact ((ntp_client_datagram ntpDec0 NTPState.new (List.replicate 48 0)
      ⟨4, NtpMode.client, 7⟩ (by decide)).1 rfl rfl).1
  · exact ((ntp_client_datagram ntpDec0 NTPState.new (List.replicate 47 0)
      ⟨4, NtpMode.other 7, 7⟩ (by decide)).2 7 rfl).1

/-- C7: the session-establishment correlation key is the sentinel
u32::MAX, which no wire-level (16-bit) packet identifier can equal; a
CONNECT while the session is established appends one transaction carrying
the DoubleConnect event, leaving the connected flag and all stored
transactions intact (only the protocol_version field is refreshed from
the new CONNECT, as in the source). -/
theorem mqtt_connect_sentinel (st : MQTTState) (hdr : FixedHeader) (pv : Nat)
    (tc : Bool) (hconn : st.connected = true) :
    (∀ k : Nat, k < 65536 → MQTT_CONNECT_PKT_ID ≠ k) ∧
    st.handle_msg ⟨hdr, .CONNECT pv⟩ tc
      = { st with
          protocol_version := pv,
          tx_id := st.tx_id + 1,
          transactions := st.transactions ++
            [⟨st.tx_id + 1, none, [⟨hdr, .CONNECT pv⟩], false, tc, !tc,
              [MQTTEvent.DoubleConnect]⟩] } ∧
    (st.handle_msg ⟨hdr, .CONNECT pv⟩ tc).connected = true := by
  have h2 : st.handle_msg ⟨hdr, .CONNECT pv⟩ tc
      = { st with
          protocol_version := pv,
          tx_id := st.tx_id + 1,
          transactions := st.transactions ++
            [⟨st.tx_id + 1, none, [⟨hdr, .CONNECT pv⟩], false, tc, !tc,
              [MQTTEvent.DoubleConnect]⟩] } := by
    simp [MQTTState.handle_msg, hconn, MQTTState.push_tx, MQTTState.new_tx,
          MQTTTransaction.new, MQTTState.set_event]
  refine ⟨?_, h2, ?_⟩
  · intro k hk
    unfold MQTT_CONNECT_PKT_ID
    omega
  · rw [h2]
    exact hconn

/-- Witness for C7 at a concrete established state. -/
theorem mqtt_connect_sentinel_witness :
    MQTT_CONNECT_PKT_ID ≠ 5 ∧
    mqttConn0.handle_msg ⟨⟨MQTTTypeCode.CONNECT, 0⟩, .CONNECT 4⟩ false
      = { mqttConn0 with
          protocol_version := 4,
          tx_id := 1,
          transactions :=
            [⟨1, none, [⟨⟨MQTTTypeCode.CONNECT, 0⟩, .CONNECT 4⟩], false, false,
              true, [MQTTEvent.DoubleConnect]⟩] } := by
  have h := mqtt_connect_sentinel mqttConn0 ⟨MQTTTypeCode.CONNECT, 0⟩ 4 false rfl
  exact ⟨h.1 5 (by omega), h.2.1⟩

/-- C1 (failing-input evaluation): one well-formed length-framed record
(mark 00 00 00 04 followed by a 4-byte Kerberos message that the decoder
accepts as an AS-REP) delivered whole creates one transaction, but the
same bytes delivered as eight 1-byte parse calls never decode anything:
the record mark is never read because buffered bytes are only re-spliced
when a record length is already pending, so all eight bytes sit dead in
the defragmentation buffer with record_ts still 0.  The whole-buffer call
also leaves record_ts = 0x01020304 (the record's own first four bytes)
behind, because the source resets record_ts to zero before using it to
slice off the consumed record. -/
theorem krb5_tcp_split_delivery_diverges :
    (rs_krb5_parse_request_tcp kd0 KRB5State.new
        [0, 0, 0, 4, 1, 2, 3, 4]).1.transactions.length = 1 ∧
    (rs_krb5_parse_request_tcp kd0 KRB5State.new
        [0, 0, 0, 4, 1, 2, 3, 4]).2 = AppLayerResult.ok ∧
    (rs_krb5_parse_request_tcp kd0 KRB5State.new
        [0, 0, 0, 4, 1, 2, 3, 4]).1.record_ts = 16909060 ∧
    (krb5_feed_ts kd0 KRB5State.new
        [[0], [0], [0], [4], [1], [2], [3], [4]]).transactions.length = 0 ∧
    (krb5_feed_ts kd0 KRB5State.new
        [[0], [0], [0], [4], [1], [2], [3], [4]]).defrag_buf_ts
      = [0, 0, 0, 4, 1, 2, 3, 4] ∧
    (krb5_feed_ts kd0 KRB5State.new
        [[0], [0], [0], [4], [1], [2], [3], [4]]).record_ts = 0 := by
  decide

/-- Behaviour of the request-direction record loop on a buffer whose
declared record length exceeds the available bytes: everything after the
mark is buffered and the call returns Ok. -/
theorem krb5_loop_ts_short (kd : KrbDecoder) (st : KRB5State)
    (a b c d : Nat) (rest : List Nat)
    (h : rest.length < ((a * 256 + b) * 256 + c) * 256 + d) :
    krb5_loop_ts kd st (a :: b :: c :: d :: rest)
      = ({ st with
           record_ts := ((a * 256 + b) * 256 + c) * 256 + d,
           defrag_buf_ts := st.defrag_buf_ts ++ rest }, AppLayerResult.ok) := by
  rw [krb5_loop_ts]
  rw [if_neg (by omega)]

/-- With no pending record, the TCP request parser goes straight to the
record loop. -/
theorem rs_krb5_parse_request_tcp_zero (kd : KrbDecoder) (st : KRB5State)
    (buf : List Nat) (h0 : st.record_ts = 0) :
    rs_krb5_parse_request_tcp kd st buf = krb5_entry_ts kd st buf := by
  unfold rs_krb5_parse_request_tcp
  rw [if_pos h0]

/-- With no pending record, the first loop iteration is the
record-mark-reading loop. -/
theorem krb5_entry_ts_zero (kd : KrbDecoder) (st : KRB5State)
    (cur : List Nat) (h0 : st.record_ts = 0) (hc : cur ≠ []) :
    krb5_entry_ts kd st cur = krb5_loop_ts kd st cur := by
  cases cur with
  | nil => exact absurd rfl hc
  | cons a as =>
    rw [krb5_entry_ts]
    rw [if_pos h0]

/-- C6 (counterexample): the 100000-byte defragmentation cap is only
checked when a record length is already pending; from a fresh state a
single 100001-byte delivery (0 buffered + 100001 new > 100000) is
buffered and the call returns Ok, not Error. -/
theorem krb5_cap_bypassed_without_pending_record :
    KRB5State.new.defrag_buf_ts.length + krb5_big_input.length > 100000 ∧
    (rs_krb5_parse_request_tcp kd0 KRB5State.new krb5_big_input).2
      = AppLayerResult.ok ∧
    AppLayerResult.ok ≠ AppLayerResult.err := by
  refine ⟨?_, ?_, by decide⟩
  · have h2 : KRB5State.new.defrag_buf_ts = ([] : List Nat) := rfl
    have h3 : krb5_big_input.length = 100001 := by
      unfold krb5_big_input
      rw [List.length_cons, List.length_cons, List.length_cons,
          List.length_cons, List.length_replicate]
    rw [h2, h3, List.length_nil]
    norm_num
  · rw [rs_krb5_parse_request_tcp_zero kd0 KRB5State.new krb5_big_input rfl]
    rw [krb5_entry_ts_zero kd0 KRB5State.new krb5_big_input rfl
      (by unfold krb5_big_input; exact List.cons_ne_nil _ _)]
    unfold krb5_big_input
    rw [krb5_loop_ts_short kd0 KRB5State.new 59 154 202 0 (List.replicate 99997 0)
      (by rw [List.length_replicate]; norm_num)]

/-- C6 (amended): whenever a record length is pending for a direction
(nonzero record counter) and the buffered bytes plus the new delivery
exceed 100000 bytes, the parse call returns Error and leaves the state
unchanged. -/
theorem krb5_cap_error_when_record_pending (kd : KrbDecoder) (st : KRB5State)
    (buf : List Nat) :
    (st.record_ts ≠ 0 → st.defrag_buf_ts.length + buf.length > 100000 →
       rs_krb5_parse_request_tcp kd st buf = (st, AppLayerResult.err)) ∧
    (st.record_tc ≠ 0 → st.defrag_buf_tc.length + buf.length > 100000 →
       rs_krb5_parse_response_tcp kd st buf = (st, AppLayerResult.err)) := by
  constructor
  · intro h1 h2
    unfold rs_krb5_parse_request_tcp
    rw [if_neg h1, if_pos h2]
  · intro h1 h2
    unfold rs_krb5_parse_response_tcp
    rw [if_neg h1, if_pos h2]

/-- Witness for the amended C6 at a concrete over-cap state. -/
theorem krb5_cap_error_witness :
    rs_krb5_parse_request_tcp kd0 krb5_pending_big [0]
      = (krb5_pending_big, AppLayerResult.err) ∧
    rs_krb5_parse_response_tcp kd0 krb5_pending_big [0]
      = (krb5_pending_big, AppLayerResult.err) := by
  have h := krb5_cap_error_when_record_pending kd0 krb5_pending_big [0]
  have hts : krb5_pending_big.record_ts = 1 := rfl
  have htc : krb5_pending_big.record_tc = 1 := rfl
  have hbts : krb5_pending_big.defrag_buf_ts = List.replicate 100000 0 := rfl
  have hbtc : krb5_pending_big.defrag_buf_tc = List.replicate 100000 0 := rfl
  have hlen1 : krb5_pending_big.defrag_buf_ts.length + [(0 : Nat)].length > 100000 := by
    rw [hbts, List.length_replicate]
    norm_num
  have hlen2 : krb5_pending_big.defrag_buf_tc.length + [(0 : Nat)].length > 100000 := by
    rw [hbtc, List.length_replicate]
    norm_num
  constructor
  · exact h.1 (by rw [hts]; norm_num) hlen1
  · exact h.2 (by rw [htc]; norm_num) hlen2

/-- C3 (counterexample): a 27-byte prefix that the ISAKMP header decoder
still reports as needing more data (a truncated-but-plausible header
prefix) is Rejected by the IKE probing function, not left Undecided: any
input below 28 bytes is mapped to ALPROTO_FAILED before the decoder is
even consulted. -/
theorem ike_probe_truncated_prefix_rejected :
    ikeDec0 (List.replicate 27 0) = IsakmpRes.incomplete ∧
    rs_ike_probing ikeDec0 STREAM_TOSERVER (List.replicate 27 0)
      = AppProtoVal.failed ∧
    AppProtoVal.failed ≠ AppProtoVal.unknown := by
  decide

/-- C3 (amended): the probes without a minimum-length gate (NTP, MQTT)
return Undecided on decoder need-more-data and Rejected on invalid
structural markers; the KRB5 UDP/TCP probes first reject any input of at
most 10 / 14 bytes regardless of content and only above that gate map
decoder need-more-data to Undecided; the IKE probe rejects inputs shorter
than the 28-byte header and never returns Undecided at all. -/
theorem probe_minlen_gate_behavior :
    (∀ (p : List Nat → NtpRes) (i : List Nat),
       p i = NtpRes.incomplete → ntp_probing p i = AppProtoVal.unknown) ∧
    (∀ (p : List Nat → NtpRes) (i : List Nat) (msg : NtpMsg),
       p i = NtpRes.ok msg → msg.version ≠ 3 → msg.version ≠ 4 →
       ntp_probing p i = AppProtoVal.failed) ∧
    (∀ (pf : List Nat → FHRes) (i : List Nat),
       pf i = FHRes.incomplete → rs_mqtt_probing pf i = AppProtoVal.unknown) ∧
    (∀ (pf : List Nat → FHRes) (i : List Nat) (n : Nat) (hdr : FixedHeader),
       pf i = FHRes.ok n hdr → hdr.message_type = MQTTTypeCode.UNASSIGNED →
       rs_mqtt_probing pf i = AppProtoVal.failed) ∧
    (∀ (pf : List Nat → FHRes) (i : List Nat) (n : Nat) (hdr : FixedHeader),
       pf i = FHRes.ok n hdr → hdr.qos_level > 2 →
       rs_mqtt_probing pf i = AppProtoVal.failed) ∧
    (∀ (kd : KrbDecoder) (i : List Nat),
       i.length ≤ 10 → rs_krb5_probing kd i = AppProtoVal.failed) ∧
    (∀ (kd : KrbDecoder) (i : List Nat),
       10 < i.length → kd.der i = DerRes.incomplete →
       rs_krb5_probing kd i = AppProtoVal.unknown) ∧
    (∀ (kd : KrbDecoder) (i : List Nat),
       i.length ≤ 14 → rs_krb5_probing_tcp kd i = AppProtoVal.failed) ∧
    (∀ (kd : KrbDecoder) (i : List Nat) (r : Nat) (rest : List Nat),
       14 < i.length → be_u32 i = some (r, rest) → r ≤ 16384 →
       kd.der rest = DerRes.incomplete →
       rs_krb5_probing_tcp kd i = AppProtoVal.unknown) ∧
    (∀ (pih : List Nat → IsakmpRes) (dir : Nat) (i : List Nat),
       i.length < 28 → rs_ike_probing pih dir i = AppProtoVal.failed) ∧
    (∀ (pih : List Nat → IsakmpRes) (dir : Nat) (i : List Nat),
       rs_ike_probing pih dir i ≠ AppProtoVal.unknown) := by
  refine ⟨?_, ?_, ?_, ?_, ?_, ?_, ?_, ?_, ?_, ?_, ?_⟩
  · intro p i h
    simp [ntp_probing, h]
  · intro p i msg h h3 h4
    simp [ntp_probing, h, h3, h4]
  · intro pf i h
    simp [rs_mqtt_probing, h]
  · intro pf i n hdr h ht
    simp [rs_mqtt_probing, h, ht]
  · intro pf i n hdr h hq
    simp only [rs_mqtt_probing, h]
    by_cases ht : hdr.message_type = MQTTTypeCode.UNASSIGNED
    · rw [if_pos ht]
    · rw [if_neg ht, if_pos hq]
  · intro kd i h
    unfold rs_krb5_probing
    rw [if_pos h]
  · intro kd i h hder
    unfold rs_krb5_probing
    rw [if_neg (by omega)]
    rw [hder]
  · intro kd i h
    unfold rs_krb5_probing_tcp
    rw [if_pos h]
  · intro kd i r rest h hbe hr hder
    have hrest : 10 < rest.length := by
      have := be_u32_length hbe
      omega
    simp only [rs_krb5_probing_tcp, hbe]
    rw [if_neg (by omega), if_neg (by omega)]
    simp only [rs_krb5_probing, hder]
    rw [if_neg (by omega)]
  · intro pih dir i h
    unfold rs_ike_probing
    rw [if_pos h]
  · intro pih dir i
    unfold rs_ike_probing
    split
    · simp
    · split <;> simp

/-- Witness for the amended C3 at concrete probes and inputs. -/
theorem probe_minlen_gate_witness :
    rs_ike_probing ikeDec0 STREAM_TOCLIENT (List.replicate 5 0)
      = AppProtoVal.failed ∧
    rs_krb5_probing kd0 (List.replicate 10 0) = AppProtoVal.failed ∧
    ntp_probing ntpDec0 [1, 2, 3] = AppProtoVal.unknown := by
  refine ⟨?_, ?_, ?_⟩
  · exact probe_minlen_gate_behavior.2.2.2.2.2.2.2.2.2.1 ikeDec0 STREAM_TOCLIENT
      (List.replicate 5 0) (by decide)
  · exact probe_minlen_gate_behavior.2.2.2.2.2.1 kd0 (List.replicate 10 0)
      (by decide)
  · exact probe_minlen_gate_behavior.1 ntpDec0 [1, 2, 3] (by decide)

/-- C2: whenever MQTT parse_request or parse_response returns an
Incomplete result, consumed ≤ input length and consumed + needed > input
length.  The black-box decoder is constrained by its modelled contract:
it consumes nothing when reporting a truncated (over-limit) message, and
it signals need-more-data only on buffers within the u32 range (a real
MQTT message never exceeds the 256MB remaining-length limit, so a larger
buffer is never incomplete); the input itself is bounded by the u32
length of the C entry point. -/
theorem mqtt_incomplete_consumed_needed (pm : MQTTDecoder) (input : List Nat)
    (Htr : ∀ i v l n msg s, pm i v l = MQTTParseRes.ok n msg →
             msg.op = MQTTOperation.TRUNCATED s → n = 0)
    (Hinc : ∀ i v l, pm i v l = MQTTParseRes.incomplete → i.length + 1 < U32)
    (Hlen : input.length ≤ 4294967295) :
    (∀ (fuel : Nat) (st st1 : MQTTState) (r : AppLayerResult),
       MQTTState.parse_request pm fuel st input = some (st1, r) →
       r.status = 1 →
       r.consumed ≤ input.length ∧ input.length < r.consumed + r.needed) ∧
    (∀ (fuel : Nat) (st st1 : MQTTState) (r : AppLayerResult),
       MQTTState.parse_response pm fuel st input = some (st1, r) →
       r.status = 1 →
       r.consumed ≤ input.length ∧ input.length < r.consumed + r.needed) := by
  have hlen : input.length < U32 := by
    unfold U32
    omega
  constructor
  · intro fuel st st1 r hrun hst
    exact parse_dir_incomplete pm false fuel st st1 input r Htr Hinc hlen hrun hst
  · intro fuel st st1 r hrun hst
    exact parse_dir_incomplete pm true fuel st st1 input r Htr Hinc hlen hrun hst

/-- Witness for C2 at a concrete decoder, state and 1-byte input. -/
theorem mqtt_incomplete_witness :
    MQTTState.parse_request pm0 5 (MQTTState.new 1048576) [7]
      = some (MQTTState.new 1048576, AppLayerResult.incomplete 0 2) ∧
    (AppLayerResult.incomplete 0 2).consumed ≤ 1 ∧
    1 < (AppLayerResult.incomplete 0 2).consumed
        + (AppLayerResult.incomplete 0 2).needed := by
  have hrun : MQTTState.parse_request pm0 5 (MQTTState.new 1048576) [7]
      = some (MQTTState.new 1048576, AppLayerResult.incomplete 0 2) := by decide
  have h := (mqtt_incomplete_consumed_needed pm0 [7]
    (by
      intro i v l n msg s hok _
      unfold pm0 at hok
      split at hok <;> exact absurd hok (by simp))
    (by
      intro i v l hin
      unfold pm0 at hin
      split at hin
      · rename_i hle
        unfold U32
        omega
      · exact absurd hin (by simp))
    (by norm_num)).1 5 (MQTTState.new 1048576) (MQTTState.new 1048576)
    (AppLayerResult.incomplete 0 2) hrun (by decide)
  exact ⟨hrun, h.1, h.2⟩

/-- C4: within one flow state, transaction ids are unique, assigned
strictly increasing by exactly one per creation starting from 1
internally; get_tx(e) returns the stored transaction with internal id
e + 1 while present, the iterator yields external id = internal id - 1,
free_tx(e) followed by get_tx(e) returns nothing, and ids are never
reused (every stored id stays at most the counter, and each creation uses
counter + 1).  Stated for the MQTT store and the KRB5 store. -/
theorem tx_id_discipline :
    (∀ maxlen, MqttInv (MQTTState.new maxlen)) ∧
    (∀ (st : MQTTState) (m : MQTTMessage) (tc : Bool),
       ((st.handle_msg m tc).tx_id = st.tx_id ∧
        (st.handle_msg m tc).transactions.map MQTTTransaction.tx_id
          = st.transactions.map MQTTTransaction.tx_id) ∨
       ((st.handle_msg m tc).tx_id = st.tx_id + 1 ∧
        (st.handle_msg m tc).transactions.map MQTTTransaction.tx_id
          = st.transactions.map MQTTTransaction.tx_id ++ [st.tx_id + 1])) ∧
    (∀ (st : MQTTState) (m : MQTTMessage) (tc : Bool),
       MqttInv st → MqttInv (st.handle_msg m tc)) ∧
    (∀ (st : MQTTState) (e : Nat), MqttInv st → MqttInv (st.free_tx e)) ∧
    (∀ (st : MQTTState) (e : Nat) (tx : MQTTTransaction),
       st.get_tx e = some tx → tx.tx_id = e + 1 ∧ tx ∈ st.transactions) ∧
    (∀ (st : MQTTState) (e : Nat), MqttInv st → (st.free_tx e).get_tx e = none) ∧
    (∀ (st : MQTTState) (mn cursor : Nat) (tx : MQTTTransaction)
       (eid : Nat) (more : Bool) (c1 : Nat), MqttInv st →
       st.tx_iterator mn cursor = some (tx, eid, more, c1) →
       eid + 1 = tx.tx_id ∧ tx ∈ st.transactions ∧ mn + 1 ≤ tx.tx_id) ∧
    Krb5Inv KRB5State.new ∧
    (∀ (kd : KrbDecoder) (st : KRB5State) (i : List Nat),
       (((st.parse kd i).1.tx_id = st.tx_id ∧
         (st.parse kd i).1.transactions.map KRB5Transaction.id
           = st.transactions.map KRB5Transaction.id)) ∨
       (((st.parse kd i).1.tx_id = st.tx_id + 1 ∧
         (st.parse kd i).1.transactions.map KRB5Transaction.id
           = st.transactions.map KRB5Transaction.id ++ [st.tx_id + 1]))) ∧
    (∀ (kd : KrbDecoder) (st : KRB5State) (i : List Nat),
       Krb5Inv st → Krb5Inv (st.parse kd i).1) ∧
    (∀ (st : KRB5State) (e : Nat), Krb5Inv st → Krb5Inv (st.free_tx e)) ∧
    (∀ (st : KRB5State) (e : Nat) (tx : KRB5Transaction),
       st.get_tx_by_id e = some tx → tx.id = e + 1 ∧ tx ∈ st.transactions) ∧
    (∀ (st : KRB5State) (e : Nat), Krb5Inv st →
       (st.free_tx e).get_tx_by_id e = none) := by
  refine ⟨?_, ?_, ?_, ?_, ?_, ?_, ?_, ?_, ?_, ?_, ?_, ?_, ?_⟩
  · intro maxlen
    constructor
    · exact List.Pairwise.nil
    · intro i hi
      simp [MQTTState.new] at hi
  · exact MQTTState.handle_msg_ids
  · exact MQTTState.handle_msg_inv
  · exact mqtt_free_tx_inv
  · exact mqtt_get_tx_spec
  · exact mqtt_free_get_none
  · intro st mn cursor tx eid more c1 hinv hit
    rcases st.tx_iterator_spec mn cursor tx eid more c1 hit with ⟨h1, h2, h3⟩
    have hinv1 := hinv
    unfold MqttInv IdsOk at hinv1
    have hge : 1 ≤ tx.tx_id :=
      (hinv1.2 tx.tx_id (List.mem_map_of_mem MQTTTransaction.tx_id h1)).1
    refine ⟨by omega, h1, h3⟩
  · constructor
    · exact List.Pairwise.nil
    · intro i hi
      simp [KRB5State.new] at hi
  · exact krb5_parse_ids
  · exact KRB5State.parse_inv
  · exact krb5_free_tx_inv
  · exact krb5_get_tx_spec
  · exact krb5_free_get_none

/-- Witness for C4 at concrete stores. -/
theorem tx_id_discipline_witness :
    ((MQTTState.new 1048576).free_tx 0).get_tx 0 = none ∧
    (KRB5State.new.free_tx 3).get_tx_by_id 3 = none := by
  constructor
  · exact tx_id_discipline.2.2.2.2.2.1 (MQTTState.new 1048576) 0 (by decide)
  · exact tx_id_discipline.2.2.2.2.2.2.2.2.2.2.2.2 KRB5State.new 3 (by decide)

/-- C9: the per-flow transaction count accessors return the running id
counter (the number of transactions ever created), not the number stored:
free_tx leaves the count unchanged and shrinks the store by one whenever
the id was present, handle_msg grows the counter by exactly the number of
transactions it stores, and under the store invariant the stored count
never exceeds the counter (so after a removal it is strictly below). -/
theorem tx_count_counts_created :
    (∀ st : MQTTState, rs_mqtt_state_get_tx_count st = st.tx_id) ∧
    (∀ (st : MQTTState) (e : Nat),
       rs_mqtt_state_get_tx_count (st.free_tx e) = rs_mqtt_state_get_tx_count st) ∧
    (∀ (st : MQTTState) (m : MQTTMessage) (tc : Bool),
       (st.handle_msg m tc).tx_id + st.transactions.length
         = st.tx_id + (st.handle_msg m tc).transactions.length) ∧
    (∀ (st : MQTTState) (e : Nat) (tx : MQTTTransaction),
       st.get_tx e = some tx →
       (st.free_tx e).transactions.length + 1 = st.transactions.length) ∧
    (∀ st : MQTTState, MqttInv st →
       st.transactions.length ≤ rs_mqtt_state_get_tx_count st) ∧
    (∀ st : NTPState, rs_ntp_state_get_tx_count st = st.tx_id) ∧
    (∀ (st : NTPState) (e : Nat),
       rs_ntp_state_get_tx_count (st.free_tx e) = rs_ntp_state_get_tx_count st) ∧
    (∀ (st : NTPState) (e : Nat) (tx : NTPTransaction),
       st.get_tx_by_id e = some tx →
       (st.free_tx e).transactions.length + 1 = st.transactions.length) := by
  refine ⟨?_, ?_, ?_, ?_, ?_, ?_, ?_, ?_⟩
  · intro st
    rfl
  · intro st e
    rfl
  · intro st m tc
    rcases st.handle_msg_ids m tc with ⟨h1, h2⟩ | ⟨h1, h2⟩ <;>
      (have hlen := congrArg List.length h2
       simp only [List.length_map, List.length_append, List.length_cons,
                  List.length_nil] at hlen
       omega)
  · exact mqtt_free_tx_length
  · intro st hinv
    have hinv1 := hinv
    unfold MqttInv at hinv1
    have := hinv1.length_le
    rw [List.length_map] at this
    exact this
  · intro st
    rfl
  · intro st e
    rfl
  · exact ntp_free_tx_length

/-- Witness for C9 at a concrete store. -/
theorem tx_count_counts_created_witness :
    rs_mqtt_state_get_tx_count ((MQTTState.new 1048576).free_tx 0)
      = rs_mqtt_state_get_tx_count (MQTTState.new 1048576) ∧
    (MQTTState.new 1048576).transactions.length
      ≤ rs_mqtt_state_get_tx_count (MQTTState.new 1048576) := by
  constructor
  · exact tx_count_counts_created.2.1 (MQTTState.new 1048576) 0
  · exact tx_count_counts_created.2.2.2.2.1 (MQTTState.new 1048576) (by decide)

/-- C5: in an established session, a PUBLISH with QoS 1-2 carrying packet
identifier k followed by a PUBACK (or PUBCOMP) with the same identifier
yields exactly one transaction for the exchange, complete and with its
correlation key cleared; an acknowledgement matching no pending
incomplete transaction (in particular, a second acknowledgement after the
key was cleared) creates a new transaction carrying the MissingPublish
event, non-fatally. -/
theorem mqtt_publish_ack_correlation (st : MQTTState) (phdr ahdr : FixedHeader)
    (k : Nat) (aop : MQTTOperation)
    (hconn : st.connected = true)
    (hq : phdr.qos_level = 1 ∨ phdr.qos_level = 2)
    (hop : aop = MQTTOperation.PUBACK k ∨ aop = MQTTOperation.PUBCOMP k)
    (hnp : ∀ tx ∈ st.transactions, tx.complete = false → tx.pkt_id ≠ some k) :
    (st.handle_msg ⟨phdr, .PUBLISH (some k)⟩ false).handle_msg ⟨ahdr, aop⟩ true
      = { st with
          tx_id := st.tx_id + 1,
          transactions := st.transactions ++
            [⟨st.tx_id + 1, none,
              [⟨phdr, .PUBLISH (some k)⟩, ⟨ahdr, aop⟩], true, false, true, []⟩] } ∧
    (∀ (st1 : MQTTState) (amsg : MQTTMessage) (tc : Bool),
       st1.connected = true →
       (amsg.op = MQTTOperation.PUBACK k ∨ amsg.op = MQTTOperation.PUBCOMP k) →
       (∀ tx ∈ st1.transactions, tx.complete = false → tx.pkt_id ≠ some k) →
       st1.handle_msg amsg tc
         = { st1 with
             tx_id := st1.tx_id + 1,
             transactions := st1.transactions ++
               [⟨st1.tx_id + 1, none, [amsg], false, tc, !tc,
                 [MQTTEvent.MissingPublish]⟩] }) ∧
    ((st.handle_msg ⟨phdr, .PUBLISH (some k)⟩ false).handle_msg
        ⟨ahdr, aop⟩ true).handle_msg ⟨ahdr, aop⟩ true
      = { st with
          tx_id := st.tx_id + 2,
          transactions := st.transactions ++
            [⟨st.tx_id + 1, none,
              [⟨phdr, .PUBLISH (some k)⟩, ⟨ahdr, aop⟩], true, false, true, []⟩,
             ⟨st.tx_id + 2, none, [⟨ahdr, aop⟩], false, true, false,
              [MQTTEvent.MissingPublish]⟩] } := by
  have hunmatched : ∀ (st1 : MQTTState) (amsg : MQTTMessage) (tc : Bool),
      st1.connected = true →
      (amsg.op = MQTTOperation.PUBACK k ∨ amsg.op = MQTTOperation.PUBCOMP k) →
      (∀ tx ∈ st1.transactions, tx.complete = false → tx.pkt_id ≠ some k) →
      st1.handle_msg amsg tc
        = { st1 with
            tx_id := st1.tx_id + 1,
            transactions := st1.transactions ++
              [⟨st1.tx_id + 1, none, [amsg], false, tc, !tc,
                [MQTTEvent.MissingPublish]⟩] } := by
    intro st1 amsg tc h1 h2 h3
    exact handle_ack_unmatched st1 amsg k tc h1 h2 h3
  have h1 := handle_publish_keyed st phdr k false hconn hq
  have h2 : (st.handle_msg ⟨phdr, .PUBLISH (some k)⟩ false).handle_msg
      ⟨ahdr, aop⟩ true
      = { st with
          tx_id := st.tx_id + 1,
          transactions := st.transactions ++
            [⟨st.tx_id + 1, none,
              [⟨phdr, .PUBLISH (some k)⟩, ⟨ahdr, aop⟩], true, false, true, []⟩] } := by
    rw [h1]
    rw [handle_ack_matched
      { st with
        tx_id := st.tx_id + 1,
        transactions := st.transactions ++
          [⟨st.tx_id + 1, some k, [⟨phdr, .PUBLISH (some k)⟩], false, false,
            !false, []⟩] }
      ⟨ahdr, aop⟩ st.transactions
      ⟨st.tx_id + 1, some k, [⟨phdr, .PUBLISH (some k)⟩], false, false, !false, []⟩
      k true hconn hop rfl ⟨rfl, rfl⟩ hnp]
    rfl
  refine ⟨h2, hunmatched, ?_⟩
  rw [h2]
  rw [hunmatched
    { st with
      tx_id := st.tx_id + 1,
      transactions := st.transactions ++
        [⟨st.tx_id + 1, none,
          [⟨phdr, .PUBLISH (some k)⟩, ⟨ahdr, aop⟩], true, false, true, []⟩] }
    ⟨ahdr, aop⟩ true hconn hop ?_]
  · simp
  · intro tx htx hcomp
    rcases List.mem_append.mp htx with hl | hr
    · exact hnp tx hl hcomp
    · rcases List.mem_singleton.mp hr with rfl
      simp at hcomp

/-- Witness for C5 at a concrete established state and identifier 5. -/
theorem mqtt_publish_ack_correlation_witness :
    (mqttConn0.handle_msg
        ⟨⟨MQTTTypeCode.PUBLISH, 1⟩, .PUBLISH (some 5)⟩ false).handle_msg
        ⟨⟨MQTTTypeCode.PUBACK, 0⟩, .PUBACK 5⟩ true
      = { mqttConn0 with
          tx_id := 1,
          transactions :=
            [⟨1, none,
              [⟨⟨MQTTTypeCode.PUBLISH, 1⟩, .PUBLISH (some 5)⟩,
               ⟨⟨MQTTTypeCode.PUBACK, 0⟩, .PUBACK 5⟩], true, false, true, []⟩] } := by
  have h := mqtt_publish_ack_correlation mqttConn0 ⟨MQTTTypeCode.PUBLISH, 1⟩
    ⟨MQTTTypeCode.PUBACK, 0⟩ 5 (.PUBACK 5) rfl (Or.inl rfl) (Or.inl rfl)
    (by
      intro tx htx _
      simp [mqttConn0, MQTTState.new] at htx)
  exact h.1
